import Mathlib

/-!
Shallow embedding of the FootballSimulator backend core
(`src/backend/app/services/simulation_service.py`,
`src/backend/app/services/trade_service.py`,
`src/backend/app/services/roster_service.py`,
`src/shared/utils/rules.py`) together with theorems settling the
specification claims about it.

Machine reals are modelled by `ℚ`; `random.Random` is modelled as a
deterministic stream of rationals consumed in program order (Python's
generator is deterministic given the seed; each primitive draw is one
stream value).  SQLite tables are lists of typed rows; `UPDATE`/`DELETE`
are list maps/filters.
-/

/-! ## Randomness: deterministic seeded stream -/

/-- A seeded pseudo-random generator: a fixed stream of rationals and a
    cursor.  Models `random.Random(seed)`: all draws come from the stream
    in program order. -/
structure Rng where
  stream : ℕ → ℚ
  pos : ℕ

/-- Draw the next raw stream value. -/
def Rng.next (r : Rng) : ℚ × Rng :=
  (r.stream r.pos, ⟨r.stream, r.pos + 1⟩)

/-- `rng.gauss(mu, sigma)`: a Gaussian draw, modelled as
    `mu + sigma * z` for the next raw value `z`. -/
def Rng.gauss (r : Rng) (mu sigma : ℚ) : ℚ × Rng :=
  let (z, r') := r.next
  (mu + sigma * z, r')

/-- `rng.random()`: the next raw value (claims never need the `[0,1)`
    bound except as an explicit hypothesis). -/
def Rng.random (r : Rng) : ℚ × Rng := r.next

/-- `rng.uniform(a, b)` = `a + (b - a) * u`. -/
def Rng.uniform (r : Rng) (a b : ℚ) : ℚ × Rng :=
  let (u, r') := r.next
  (a + (b - a) * u, r')

/-- A natural number below `n` derived from the next draw (models the
    index choices made by `random.shuffle`). -/
def Rng.natBelow (r : Rng) (n : ℕ) : ℕ × Rng :=
  let (u, r') := r.next
  (u.num.natAbs % n, r')

/-! ## Python numeric primitives -/

/-- Python `round(x)`: nearest integer, ties to even. -/
def pyRound (x : ℚ) : ℤ :=
  let f : ℤ := ⌊x⌋
  let r : ℚ := x - f
  if r < 1/2 then f
  else if 1/2 < r then f + 1
  else if f % 2 = 0 then f else f + 1

/-- Python `int(x)`: truncation toward zero. -/
def truncInt (x : ℚ) : ℤ :=
  if 0 ≤ x then ⌊x⌋ else -⌊-x⌋

/-- Python `abs` on rationals. -/
def absQ (x : ℚ) : ℚ := if x < 0 then -x else x

/-- Python `round(x, 1)`: one decimal place, ties to even. -/
def pyRound1 (x : ℚ) : ℚ := (pyRound (10 * x) : ℚ) / 10

/-! ## Rules (`shared/utils/rules.py`) -/

/-- `GameRules` from `shared/utils/rules.py` (the depth map is an
    association list, preserving dict iteration order). -/
structure GameRules where
  rosterMin : ℤ
  rosterMax : ℤ
  salaryCap : ℤ
  salaryBase : ℤ
  salaryPerRating : ℤ
  maxContractYears : ℤ
  eliteQbRating : ℤ
  maxEliteQbs : ℤ
  minPositionDepth : List (String × ℤ)

/-- `SimulationRules` from `shared/utils/rules.py`. -/
structure SimulationRules where
  basePoints : ℚ
  ratingFactor : ℚ
  homeFieldAdvantage : ℚ
  randomVariance : ℚ
  minScore : ℤ
  maxScore : ℤ
  passingYardsPerRating : ℚ
  rushingYardsPerRating : ℚ
  receivingYardsPerRating : ℚ
  defenseBigPlayFactor : ℚ
  injuryProbability : ℚ

/-- Default `SimulationRules` (`load_simulation_rules` fallback values). -/
def defaultSimRules : SimulationRules :=
  { basePoints := 24
    ratingFactor := 35/100
    homeFieldAdvantage := 3
    randomVariance := 15/2
    minScore := 10
    maxScore := 48
    passingYardsPerRating := 7
    rushingYardsPerRating := 9/2
    receivingYardsPerRating := 11/2
    defenseBigPlayFactor := 1/20
    injuryProbability := 7/100 }

/-- Default `GameRules` (`load_game_rules` fallback values). -/
def defaultGameRules : GameRules :=
  { rosterMin := 46
    rosterMax := 53
    salaryCap := 210000000
    salaryBase := 750000
    salaryPerRating := 120000
    maxContractYears := 4
    eliteQbRating := 92
    maxEliteQbs := 1
    minPositionDepth := [] }

/-! ## Database rows -/

/-- A row of the `players` table (the columns the core reads/writes). -/
structure Player where
  id : ℕ
  name : String
  position : String
  teamId : Option ℕ
  overall : ℤ
  salary : ℤ
  status : String
  depthOrder : Option ℤ
  depthPos : Option String
  freeAgentYear : Option ℤ
  injuryStatus : String
deriving DecidableEq

/-- A row of the `teams` table. -/
structure Team where
  id : ℕ
  name : String
  abbreviation : String
deriving DecidableEq

/-- A row of the `draft_picks` table. -/
structure Pick where
  id : ℕ
  teamId : ℕ
  year : ℤ
  round : ℤ
deriving DecidableEq

/-- A row of the `games` table. -/
structure GameRow where
  id : ℕ
  week : ℕ
  homeTeamId : ℕ
  awayTeamId : ℕ
  homeScore : Option ℤ
  awayScore : Option ℤ
  playedAt : Option String
deriving DecidableEq

/-- A row of `team_game_stats`. -/
structure TeamGameStatsRow where
  gameId : ℕ
  teamId : ℕ
  totalYards : ℤ
  turnovers : ℤ
deriving DecidableEq

/-- One generated per-player stat line (`_player_stat_template` plus
    overrides; also the shape of a `player_game_stats` row). -/
structure PlayerStatLine where
  playerId : ℕ
  teamId : Option ℕ
  name : String
  position : String
  passingYards : ℤ
  passingTds : ℤ
  interceptions : ℤ
  rushingYards : ℤ
  rushingTds : ℤ
  receivingYards : ℤ
  receivingTds : ℤ
  tackles : ℤ
  sacks : ℚ
  forcedTurnovers : ℤ
deriving DecidableEq

/-- An injury record emitted by `_apply_injuries`. -/
structure InjuryRecord where
  playerId : ℕ
  teamId : Option ℕ
  name : String
  status : String
deriving DecidableEq

/-- One entry of the detailed play log (`_generate_play_log`). -/
structure Play where
  sequence : ℕ
  quarter : ℤ
  clock : String
  teamId : ℕ
  teamName : String
  teamAbbr : String
  player : Option (ℕ × String × String)
  description : String
  type : String
  impact : String
  points : ℤ
  scoreHome : ℤ
  scoreAway : ℤ
deriving DecidableEq

/-- The SQLite database state the core touches. -/
structure DB where
  teams : List Team
  players : List Player
  picks : List Pick
  games : List GameRow
  teamGameStats : List TeamGameStatsRow
  playerGameStats : List (ℕ × PlayerStatLine)
  gameEvents : List (ℕ × Play)
deriving DecidableEq

/-- `SELECT id, name, abbreviation FROM teams WHERE id = ?` (first row). -/
def getTeam (db : DB) (teamId : ℕ) : Option Team :=
  db.teams.find? (fun t => t.id == teamId)

/-- `UPDATE players SET injury_status = ? WHERE id = ?`. -/
def setInjuryStatus (players : List Player) (pid : ℕ) (st : String) :
    List Player :=
  players.map (fun p => if p.id == pid then { p with injuryStatus := st } else p)

/-- First `injury_status` of the player with the given id, if any. -/
def statusOf (players : List Player) (pid : ℕ) : Option String :=
  (players.find? (fun p => p.id == pid)).map (·.injuryStatus)

/-! ## Trade service (`trade_service.py`) -/

/-- The distinct rejection/exception outcomes of `TradeService.execute_trade`.
    `unboundLocalValue` is the `NameError` raised at
    `value_delta = request_value - offer_value`: neither name is ever
    assigned in the function body. -/
inductive TradeErr
  | sameTeam
  | teamNotFound (id : ℕ)
  | playerAssetMissingId
  | playerNotOnTeam (pid tid : ℕ)
  | pickAssetMissingField
  | pickNotOwned (tid : ℕ) (year round : ℤ)
  | unsupportedAssetType
  | rosterLimitExceeded (teamName : String)
  | rosterBelowMinimum (teamName : String)
  | salaryCapExceeded (side : Bool)
  | depthShortfall (tid : ℕ) (pos : String)
  | eliteQbLimit (tid : ℕ)
  | unboundLocalValue
deriving DecidableEq

/-- A requested trade asset (one entry of the `offer`/`request` JSON lists). -/
inductive Asset
  | player (playerId : Option ℕ)
  | pick (year : Option ℤ) (round : Option ℤ)
  | unsupported
deriving DecidableEq

/-- The successful result of `execute_trade` (never actually produced:
    the function raises `NameError` first). -/
structure TradeResult where
  offerValue : ℚ
  requestValue : ℚ
  valueDelta : ℚ
deriving DecidableEq

/-- `_PICK_VALUE_BY_ROUND.get(round, 0.5)`. -/
def pickRoundValue (round : ℤ) : ℚ :=
  if round = 1 then 20 else if round = 2 then 12 else if round = 3 then 7
  else if round = 4 then 4 else if round = 5 then 5/2 else if round = 6 then 3/2
  else if round = 7 then 1 else 1/2

/-- `TradeService._pick_value`. -/
def pickValue (currentYear : ℤ) (pick : Pick) : ℚ :=
  pickRoundValue pick.round * (17/20) ^ (pick.year - currentYear).toNat

/-- `TradeService._trade_value`. -/
def tradeValue (currentYear : ℤ) (players : List Player) (picks : List Pick) : ℚ :=
  (players.map (fun p => (p.overall : ℚ))).sum +
    (picks.map (pickValue currentYear)).sum

/-- `TradeService._gather_assets`: resolve each asset against the
    proposing team, in order; first failure wins. -/
def gatherAssets (db : DB) (teamId : ℕ) :
    List Asset → Except TradeErr (List Player × List Pick)
  | [] => .ok ([], [])
  | .player pid? :: rest =>
    match pid? with
    | none => .error .playerAssetMissingId
    | some pid =>
      match db.players.find? (fun p => p.id == pid && p.teamId == some teamId) with
      | none => .error (.playerNotOnTeam pid teamId)
      | some p =>
        match gatherAssets db teamId rest with
        | .error e => .error e
        | .ok (ps, ks) => .ok (p :: ps, ks)
  | .pick year? round? :: rest =>
    match year?, round? with
    | none, _ => .error .pickAssetMissingField
    | _, none => .error .pickAssetMissingField
    | some y, some r =>
      match db.picks.find? (fun k => k.teamId == teamId && k.year == y && k.round == r) with
      | none => .error (.pickNotOwned teamId y r)
      | some k =>
        match gatherAssets db teamId rest with
        | .error e => .error e
        | .ok (ps, ks) => .ok (ps, k :: ks)
  | .unsupported :: _ => .error .unsupportedAssetType

/-- Modelled from the spec: `RosterService.roster_size` is called by
    `TradeService._validate_roster_sizes` but is missing from the source
    tree; per the spec's data model ("average `overall_rating` of its
    active roster", §8 roster/cap conservation over active salaries) and
    the analogous `roster_count` query in `sign_player`, it counts the
    team's active players. -/
def rosterSize (db : DB) (teamId : ℕ) : ℤ :=
  ((db.players.filter (fun p => p.teamId == some teamId && p.status == "active")).length : ℤ)

/-- `TradeService._validate_roster_sizes` (four checks, fail-fast). -/
def validateRosterSizes (rules : GameRules) (db : DB) (teamAId teamBId : ℕ)
    (offerPlayers requestPlayers : List Player) (teamA teamB : Team) :
    Except TradeErr Unit :=
  let teamATotal := rosterSize db teamAId
  let teamBTotal := rosterSize db teamBId
  let teamAAfter := teamATotal - offerPlayers.length + requestPlayers.length
  let teamBAfter := teamBTotal - requestPlayers.length + offerPlayers.length
  if teamAAfter > rules.rosterMax ∧ teamAAfter > teamATotal then
    .error (.rosterLimitExceeded teamA.name)
  else if teamBAfter > rules.rosterMax ∧ teamBAfter > teamBTotal then
    .error (.rosterLimitExceeded teamB.name)
  else if teamAAfter < rules.rosterMin ∧ teamAAfter < teamATotal then
    .error (.rosterBelowMinimum teamA.name)
  else if teamBAfter < rules.rosterMin ∧ teamBAfter < teamBTotal then
    .error (.rosterBelowMinimum teamB.name)
  else .ok ()

/-- `cap_total` inside `_validate_salary_caps`:
    `SELECT COALESCE(SUM(salary), 0) ... WHERE team_id = ? AND status = 'active'`. -/
def capTotal (db : DB) (teamId : ℕ) : ℤ :=
  ((db.players.filter (fun p => p.teamId == some teamId && p.status == "active")).map
    (·.salary)).sum

/-- `TradeService._validate_salary_caps` (reads pre-trade state). -/
def validateSalaryCaps (rules : GameRules) (db : DB) (teamAId teamBId : ℕ)
    (offerPlayers requestPlayers : List Player) : Except TradeErr Unit :=
  let teamACap := capTotal db teamAId
  let teamBCap := capTotal db teamBId
  let teamAOut := (offerPlayers.map (·.salary)).sum
  let teamBOut := (requestPlayers.map (·.salary)).sum
  let teamAIn := (requestPlayers.map (·.salary)).sum
  let teamBIn := (offerPlayers.map (·.salary)).sum
  if teamACap - teamAOut + teamAIn > rules.salaryCap then
    .error (.salaryCapExceeded true)
  else if teamBCap - teamBOut + teamBIn > rules.salaryCap then
    .error (.salaryCapExceeded false)
  else .ok ()

/-- `SELECT COALESCE(MAX(depth_chart_order), 0) ... WHERE team_id = ? AND
    position = ?` (SQL `MAX` ignores NULLs; no status filter). -/
def maxDepthOrder (players : List Player) (teamId : ℕ) (pos : String) : Option ℤ :=
  players.foldl
    (fun acc p =>
      if p.teamId == some teamId && p.position == pos then
        match p.depthOrder, acc with
        | some d, some m => some (max m d)
        | some d, none => some d
        | none, _ => acc
      else acc)
    none

/-- `RosterService._next_depth_order`. -/
def nextDepthOrder (players : List Player) (teamId : ℕ) (pos : String) : ℤ :=
  max 1 ((maxDepthOrder players teamId pos).getD 0 + 1)

/-- The `UPDATE players SET team_id = ?, status = 'active', ...` of
    `_apply_assets`, for one traded player. -/
def applyPlayerMove (db : DB) (destTeamId : ℕ) (p : Player) : DB :=
  let order := nextDepthOrder db.players destTeamId p.position
  let label := p.position ++ toString order
  { db with
    players := db.players.map (fun q =>
      if q.id == p.id then
        { q with teamId := some destTeamId, status := "active",
                 depthOrder := some order, depthPos := some label,
                 freeAgentYear := none }
      else q) }

/-- `TradeService._apply_assets`: players (sequentially, each seeing the
    previous moves' depth orders), then picks. -/
def applyAssets (db : DB) (players : List Player) (picks : List Pick)
    (destTeamId : ℕ) : DB :=
  let db1 := players.foldl (fun d p => applyPlayerMove d destTeamId p) db
  { db1 with
    picks := db1.picks.map (fun k =>
      if picks.any (fun k2 => k2.id == k.id) then { k with teamId := destTeamId }
      else k) }

/-- `COUNT(*) ... WHERE team_id = ? AND status = 'active' AND
    UPPER(position) = ?` used by `validate_depth_requirements`. -/
def countActiveAtPosition (players : List Player) (teamId : ℕ) (posUpper : String) : ℤ :=
  ((players.filter (fun p =>
    p.teamId == some teamId && p.status == "active" &&
      p.position.toUpper == posUpper)).length : ℤ)

/-- `RosterService.validate_depth_requirements` for one team. -/
def validateDepthFor (players : List Player) (teamId : ℕ) :
    List (String × ℤ) → Except TradeErr Unit
  | [] => .ok ()
  | (pos, minimum) :: rest =>
    if countActiveAtPosition players teamId pos.toUpper < minimum then
      .error (.depthShortfall teamId pos)
    else validateDepthFor players teamId rest

/-- `TradeService._validate_depth` (both teams, team A first). -/
def validateDepth (rules : GameRules) (db : DB) (teamAId teamBId : ℕ) :
    Except TradeErr Unit :=
  match validateDepthFor db.players teamAId rules.minPositionDepth with
  | .error e => .error e
  | .ok _ => validateDepthFor db.players teamBId rules.minPositionDepth

/-- `TradeService._validate_elite_qbs` for one team. -/
def eliteQbCount (db : DB) (teamId : ℕ) (eliteRating : ℤ) : ℤ :=
  ((db.players.filter (fun p =>
    p.teamId == some teamId && p.position == "QB" &&
      decide (eliteRating ≤ p.overall))).length : ℤ)

/-- `TradeService._validate_elite_qbs` (team A first). -/
def validateEliteQbs (rules : GameRules) (db : DB) (teamAId teamBId : ℕ) :
    Except TradeErr Unit :=
  if eliteQbCount db teamAId rules.eliteQbRating > rules.maxEliteQbs then
    .error (.eliteQbLimit teamAId)
  else if eliteQbCount db teamBId rules.eliteQbRating > rules.maxEliteQbs then
    .error (.eliteQbLimit teamBId)
  else .ok ()

/-- The validate-then-apply pipeline of `TradeService.execute_trade`, in
    source order; produces the applied state `db2` when every validation
    passes, or the first exception.  Writes happen only in
    `_apply_assets`, after the first four checks. -/
def executeTradeChecked (rules : GameRules) (db : DB) (teamAId teamBId : ℕ)
    (offer request : List Asset) : Except TradeErr DB :=
  if teamAId = teamBId then .error .sameTeam
  else
    match getTeam db teamAId with
    | none => .error (.teamNotFound teamAId)
    | some teamA =>
      match getTeam db teamBId with
      | none => .error (.teamNotFound teamBId)
      | some teamB =>
        match gatherAssets db teamAId offer with
        | .error e => .error e
        | .ok (offerPlayers, offerPicks) =>
          match gatherAssets db teamBId request with
          | .error e => .error e
          | .ok (requestPlayers, requestPicks) =>
            match validateRosterSizes rules db teamAId teamBId offerPlayers
                requestPlayers teamA teamB with
            | .error e => .error e
            | .ok _ =>
              match validateSalaryCaps rules db teamAId teamBId offerPlayers
                  requestPlayers with
              | .error e => .error e
              | .ok _ =>
                let db1 := applyAssets db offerPlayers offerPicks teamBId
                let db2 := applyAssets db1 requestPlayers requestPicks teamAId
                match validateDepth rules db2 teamAId teamBId with
                | .error e => .error e
                | .ok _ =>
                  match validateEliteQbs rules db2 teamAId teamBId with
                  | .error e => .error e
                  | .ok _ => .ok db2

/-- `TradeService.execute_trade`.  Returns the connection's pending state
    together with the outcome.  The first four validations fire before
    any write, and exceptions inside the `try` block (depth, elite-QB)
    call `connection.rollback()`, restoring the state at connection open
    (the route opens a fresh connection per request) — so every
    validation rejection pairs with the pre-call state `db`.  The success
    path never returns: after the post-apply fetches it evaluates
    `request_value - offer_value`, two names that are never bound in the
    function, and raises `NameError` (outside the `try`, so without a
    rollback of the applied writes). -/
def executeTrade (rules : GameRules) (db : DB) (teamAId teamBId : ℕ)
    (offer request : List Asset) : DB × Except TradeErr TradeResult :=
  match executeTradeChecked rules db teamAId teamBId offer request with
  | .error e => (db, .error e)
  | .ok db2 => (db2, .error .unboundLocalValue)

/-- `True` for every `Except.ok`, `false` for every raised exception. -/
def exceptIsOk {ε α : Type} : Except ε α → Bool
  | .ok _ => true
  | .error _ => false

/-- The rejections of the six validation stages (everything except the
    `NameError` on the success path). -/
def isValidationErr : TradeErr → Bool
  | .unboundLocalValue => false
  | _ => true

/-- Two teams used by concrete fixtures. -/
def twoTeams : List Team := [⟨1, "Alpha", "ALP"⟩, ⟨2, "Beta", "BET"⟩]

/-- A concrete active player row. -/
def mkPlayer (id : ℕ) (pos : String) (tid : ℕ) (rating salary : ℤ) : Player :=
  { id := id, name := "P" ++ toString id, position := pos, teamId := some tid,
    overall := rating, salary := salary, status := "active",
    depthOrder := some 1, depthPos := some (pos ++ "1"), freeAgentYear := none,
    injuryStatus := "healthy" }

/-- Fixture: a one-for-one swap of equal-salary running backs — a trade
    that passes every validation stage. -/
def dbSwap : DB :=
  { teams := twoTeams,
    players := [mkPlayer 10 "RB" 1 70 100, mkPlayer 20 "RB" 2 70 100],
    picks := [], games := [], teamGameStats := [], playerGameStats := [],
    gameEvents := [] }

/-- Fixture: each team already rosters one elite quarterback. -/
def dbElite : DB :=
  { teams := twoTeams,
    players := [mkPlayer 1 "QB" 1 95 100, mkPlayer 2 "QB" 2 95 100],
    picks := [], games := [], teamGameStats := [], playerGameStats := [],
    gameEvents := [] }

/-- Default game rules with no roster minimum (isolates other checks). -/
def gameRulesNoMin : GameRules := { defaultGameRules with rosterMin := 0 }

/-- Default game rules with a one-player roster maximum. -/
def gameRulesTiny : GameRules :=
  { defaultGameRules with rosterMin := 0, rosterMax := 1 }

/-- C1: `execute_trade` never returns a `TradeResult`.  On the concrete
    all-validations-pass swap it raises the `NameError` for the unbound
    `offer_value`/`request_value` locals (`_trade_value` is never
    called), and in general no input produces an `ok` outcome — contrary
    to the claim that a fully validated trade returns a `TradeResult`
    with the offer/request valuations and their delta. -/
theorem executeTrade_raises_nameError :
    (executeTrade defaultGameRules dbSwap 1 2 [.player (some 10)]
        [.player (some 20)]).2 = .error .unboundLocalValue ∧
    ∀ (rules : GameRules) (db : DB) (aId bId : ℕ) (offer request : List Asset),
      exceptIsOk (executeTrade rules db aId bId offer request).2 = false := by
  refine ⟨by rfl, ?_⟩
  intro rules db aId bId offer request
  unfold executeTrade
  cases executeTradeChecked rules db aId bId offer request <;> rfl

/-- C3: every rejection at a validation stage (same-team, asset
    ownership, roster bounds, salary cap, depth, elite-QB) leaves the
    connection state exactly as it was before the call: the first four
    fire before any write, and the two post-apply checks roll the
    connection back. -/
theorem executeTrade_validation_rejection_leaves_state
    (rules : GameRules) (db : DB) (aId bId : ℕ) (offer request : List Asset)
    (e : TradeErr)
    (herr : (executeTrade rules db aId bId offer request).2 = .error e)
    (hval : isValidationErr e = true) :
    (executeTrade rules db aId bId offer request).1 = db := by
  unfold executeTrade at herr ⊢
  cases h : executeTradeChecked rules db aId bId offer request with
  | error e0 => simp [h]
  | ok db2 =>
    rw [h] at herr
    simp only at herr
    cases herr
    exact absurd hval (by simp [isValidationErr])

/-- C3 witness: an elite-QB rejection fires after the assets have been
    applied, and the returned state is still the pre-trade database. -/
theorem executeTrade_validation_rejection_leaves_state_witness :
    (executeTrade gameRulesNoMin dbElite 1 2 [] [.player (some 2)]).1 = dbElite :=
  executeTrade_validation_rejection_leaves_state gameRulesNoMin dbElite 1 2 []
    [.player (some 2)] (.eliteQbLimit 1) (by rfl) (by rfl)

/-- C9: the roster-size validation rejects a team exactly when the trade
    would newly push it past a bound: over the maximum iff the post-trade
    size exceeds `roster_max` and exceeds the pre-trade size, below the
    minimum iff the post-trade size is under `roster_min` and under the
    pre-trade size (checks run A-max, B-max, A-min, B-min, fail-fast). -/
theorem validateRosterSizes_rejects_iff_newly_crossed
    (rules : GameRules) (db : DB) (aId bId : ℕ)
    (offerPlayers requestPlayers : List Player) (teamA teamB : Team) :
    (validateRosterSizes rules db aId bId offerPlayers requestPlayers teamA teamB
        = .ok () ↔
      ¬(rosterSize db aId - offerPlayers.length + requestPlayers.length >
          rules.rosterMax ∧
        rosterSize db aId - offerPlayers.length + requestPlayers.length >
          rosterSize db aId) ∧
      ¬(rosterSize db bId - requestPlayers.length + offerPlayers.length >
          rules.rosterMax ∧
        rosterSize db bId - requestPlayers.length + offerPlayers.length >
          rosterSize db bId) ∧
      ¬(rosterSize db aId - offerPlayers.length + requestPlayers.length <
          rules.rosterMin ∧
        rosterSize db aId - offerPlayers.length + requestPlayers.length <
          rosterSize db aId) ∧
      ¬(rosterSize db bId - requestPlayers.length + offerPlayers.length <
          rules.rosterMin ∧
        rosterSize db bId - requestPlayers.length + offerPlayers.length <
          rosterSize db bId)) ∧
    ((rosterSize db aId - offerPlayers.length + requestPlayers.length >
        rules.rosterMax ∧
      rosterSize db aId - offerPlayers.length + requestPlayers.length >
        rosterSize db aId) →
      validateRosterSizes rules db aId bId offerPlayers requestPlayers teamA teamB
        = .error (.rosterLimitExceeded teamA.name)) := by
  unfold validateRosterSizes
  dsimp only
  constructor
  · split_ifs with h1 h2 h3 h4 <;> simp_all
  · intro h
    split_ifs
    simp_all

/-- C9 witness: receiving a second player while already at a roster
    maximum of one is rejected for team A. -/
theorem validateRosterSizes_rejects_iff_newly_crossed_witness :
    validateRosterSizes gameRulesTiny dbSwap 1 2 [] [mkPlayer 20 "RB" 2 70 100]
        ⟨1, "Alpha", "ALP"⟩ ⟨2, "Beta", "BET"⟩
      = .error (.rosterLimitExceeded "Alpha") :=
  (validateRosterSizes_rejects_iff_newly_crossed gameRulesTiny dbSwap 1 2 []
    [mkPlayer 20 "RB" 2 70 100] ⟨1, "Alpha", "ALP"⟩ ⟨2, "Beta", "BET"⟩).2
    (by decide)

/-! ## Score generation (`simulation_service.py`) -/

/-- `SimulationService._clamp_score`: round, floor at `min_score`, cap at
    `max_score`. -/
def clampScore (rules : SimulationRules) (value : ℚ) : ℤ :=
  min rules.maxScore (max rules.minScore (pyRound value))

/-- `SimulationService._generate_scores`. -/
def generateScores (rules : SimulationRules) (rng : Rng)
    (homeRating awayRating : ℚ) : (ℤ × ℤ) × Rng :=
  let diff := (homeRating - awayRating) * rules.ratingFactor +
    rules.homeFieldAdvantage
  let g1 := rng.gauss 0 rules.randomVariance
  let homePoints := rules.basePoints + diff + g1.1
  let g2 := g1.2.gauss 0 rules.randomVariance
  let awayPoints := rules.basePoints - diff + g2.1
  let homeScore := clampScore rules homePoints
  let awayScore := clampScore rules awayPoints
  if homeScore = awayScore then
    let u := g2.2.random
    let shifted := if u.1 > 1/2 then homeScore + 3 else homeScore - 3
    ((clampScore rules (shifted : ℚ), awayScore), u.2)
  else ((homeScore, awayScore), g2.2)

/-- The raw draws of the repository's own
    `test_generate_scores_breaks_ties[clamped_min]` case: Gaussian draws
    of −20 and −15 (raw `z` = −8/3 and −2 at variance 7.5) and a
    tie-break draw of 0.2. -/
def rngClampedMin : Rng := ⟨fun n => [(-8 : ℚ)/3, -2, 1/5].getD n 0, 0⟩

/-- C2: with both ratings 80 and the default rules, Gaussian draws −20
    and −15 clamp both scores to `min_score` = 10; the tie-break draw 0.2
    subtracts 3 and the re-clamp brings the home score straight back to
    10 — the "tie broken" scores are equal, contradicting the claim (and
    the repository's own test on exactly these stub draws) that the two
    scores are always distinct after the tie-break. -/
theorem generateScores_tie_survives_reclamp :
    (generateScores defaultSimRules rngClampedMin 80 80).1 = (10, 10) := by
  norm_num [generateScores, Rng.gauss, Rng.next, Rng.random, rngClampedMin,
    defaultSimRules, clampScore, pyRound, Rat.floor_def]

/-! ## Score decomposition and shuffling -/

/-- The fixed `tail_map` of `_score_breakdown` (`dict.get`: unmatched
    remainders fall through to `[remainder]`). -/
def tailMap (r : ℤ) : List ℤ :=
  if r = 0 then [] else if r = 2 then [2] else if r = 3 then [3]
  else if r = 4 then [2, 2] else if r = 5 then [3, 2]
  else if r = 6 then [3, 3] else if r = 7 then [7] else if r = 8 then [8]
  else if r = 9 then [7, 2] else if r = 10 then [7, 3]
  else if r = 11 then [8, 3] else if r = 12 then [7, 3, 2]
  else if r = 13 then [7, 3, 3] else [r]

/-- The `while remaining > 13` seven-peeling loop of `_score_breakdown`,
    ending in the tail table. -/
def peelSevens (r : ℤ) : List ℤ :=
  if h : r > 13 then 7 :: peelSevens (r - 7) else tailMap r
termination_by r.toNat
decreasing_by omega

/-- The multiset `_score_breakdown` produces before the order shuffle: a
    deterministic function of the score alone. -/
def canonicalBreakdown (score : ℤ) : List ℤ :=
  if score ≤ 0 then [] else peelSevens score

/-- Remove the element at an index, returning it and the remainder. -/
def pickOut {α : Type} : ℕ → List α → Option (α × List α)
  | _, [] => none
  | 0, x :: xs => some (x, xs)
  | n + 1, x :: xs => (pickOut n xs).map (fun p => (p.1, x :: p.2))

/-- `random.shuffle` modelled as repeatedly drawing an index below the
    remaining length and extracting that element (a permutation fully
    determined by the generator state). -/
def shuffleAux {α : Type} : ℕ → Rng → List α → List α × Rng
  | 0, rng, l => (l, rng)
  | _ + 1, rng, [] => ([], rng)
  | fuel + 1, rng, x :: xs =>
    let j := rng.natBelow (x :: xs).length
    match pickOut j.1 (x :: xs) with
    | none => (x :: xs, j.2)
    | some (y, rest) =>
      let tail := shuffleAux fuel j.2 rest
      (y :: tail.1, tail.2)

/-- `rng.shuffle(l)`. -/
def shuffle {α : Type} (rng : Rng) (l : List α) : List α × Rng :=
  shuffleAux l.length rng l

/-- `SimulationService._score_breakdown`: the canonical multiset for the
    score, in an order chosen by the generator. -/
def scoreBreakdown (rng : Rng) (score : ℤ) : List ℤ × Rng :=
  shuffle rng (canonicalBreakdown score)

/-! ## Play-by-play reconstruction -/

/-- `SimulationService._impact_label`. -/
def impactLabel (homeBefore awayBefore homeAfter awayAfter : ℤ)
    (scoringHome : Bool) : String :=
  if homeAfter = awayAfter then "ties_game"
  else
    let beforeMargin :=
      if scoringHome then homeBefore - awayBefore else awayBefore - homeBefore
    let afterMargin :=
      if scoringHome then homeAfter - awayAfter else awayAfter - homeAfter
    if beforeMargin ≤ 0 ∧ 0 < afterMargin then "takes_lead"
    else if 0 < beforeMargin ∧ beforeMargin < afterMargin then "extends_lead"
    else if beforeMargin < 0 ∧ afterMargin < 0 then "cuts_deficit"
    else if beforeMargin < 0 ∧ 0 ≤ afterMargin then "ties_game"
    else "keeps_pressure"

/-- Python `f"{n:02}"` for the clock fields. -/
def fmt2 (n : ℤ) : String :=
  if 0 ≤ n ∧ n < 10 then "0" ++ toString n else toString n

/-- `SimulationService._time_from_marker`. -/
def timeFromMarker (marker : ℚ) : ℤ × String :=
  let totalSeconds0 := truncInt (marker * 60)
  let totalSeconds := max 0 (min totalSeconds0 (15 * 4 * 60 - 1))
  let quarterIndex := min (totalSeconds / (15 * 60)) 3
  let quarter := quarterIndex + 1
  let secondsIntoQuarter := totalSeconds - quarterIndex * (15 * 60)
  let remainingSeconds := 15 * 60 - secondsIntoQuarter
  (quarter, fmt2 (remainingSeconds / 60) ++ ":" ++ fmt2 (remainingSeconds % 60))

/-- `SimulationService._top_player`: strict improvement over a running
    best that starts at `-inf` (so the first player always takes it). -/
def topPlayer (players : List PlayerStatLine) (metric : PlayerStatLine → ℚ) :
    Option PlayerStatLine :=
  (players.foldl
    (fun acc p =>
      match acc.2 with
      | none => (some p, some (metric p))
      | some bv => if metric p > bv then (some p, some (metric p)) else acc)
    ((none : Option PlayerStatLine), (none : Option ℚ))).1

/-- `SimulationService._player_payload`. -/
def playerPayload (s : PlayerStatLine) : Option (ℕ × String × String) :=
  some (s.playerId, s.name, s.position)

/-- The `elif rb / elif defender / else` fall-through of the touchdown
    branch of `_describe_play`. -/
def tdFallback (rng : Rng) (abbr teamName : String)
    (rb defender : Option PlayerStatLine) :
    (String × Option (ℕ × String × String)) × Rng :=
  match rb with
  | some r =>
    let g := rng.gauss 8 4
    let yards := max 1 (truncInt g.1)
    ((abbr ++ " RB " ++ r.name ++ " powers in from " ++ toString yards ++
        " yards out.", playerPayload r), g.2)
  | none =>
    match defender with
    | some d =>
      ((abbr ++ " defense cashes in as " ++ d.name ++
          " scores on a takeaway.", playerPayload d), rng)
    | none => ((teamName ++ " finds the end zone.", none), rng)

/-- `SimulationService._describe_play`. -/
def describePlay (rng : Rng) (team : Team) (stats : List PlayerStatLine)
    (points : ℤ) : (String × Option (ℕ × String × String) × String) × Rng :=
  let qb := topPlayer stats (fun s => (s.passingYards : ℚ))
  let rb := topPlayer stats (fun s => (s.rushingYards : ℚ))
  let receivingCandidates := stats.filter
    (fun s => !(s.receivingYards == 0) || !(s.receivingTds == 0))
  let wr := topPlayer receivingCandidates (fun s => (s.receivingYards : ℚ))
  let defenderCandidates := stats.filter
    (fun s => !(s.tackles == 0) || !(s.sacks == 0) || !(s.forcedTurnovers == 0))
  let defender := topPlayer defenderCandidates (fun s => (s.tackles : ℚ))
  let abbr := team.abbreviation
  if points ≥ 7 then
    let core :=
      match qb, wr with
      | some q, some w =>
        let u := rng.random
        if u.1 < 3/5 then
          let g := u.2.gauss 24 12
          let yards := max 8 (truncInt g.1)
          ((abbr ++ " QB " ++ q.name ++ " finds " ++ w.name ++ " for a " ++
              toString yards ++ "-yard touchdown.", playerPayload w), g.2)
        else tdFallback u.2 abbr team.name rb defender
      | _, _ => tdFallback rng abbr team.name rb defender
    let desc :=
      if points = 8 then core.1.1 ++ " They convert the two-point try."
      else core.1.1
    ((desc, core.1.2, "touchdown"), core.2)
  else if points = 3 then
    let g := rng.gauss 42 6
    let distance := max 28 (min 54 (truncInt g.1))
    ((team.name ++ " drills a " ++ toString distance ++ "-yard field goal.",
        none, "field_goal"), g.2)
  else if points = 2 then
    match defender with
    | some d =>
      ((abbr ++ " defense swarms as " ++ d.name ++ " records a safety.",
          playerPayload d, "safety"), rng)
    | none => ((team.name ++ " records a safety.", none, "safety"), rng)
  else
    ((team.name ++ " adds " ++ toString points ++ " points.", none, "score"),
      rng)

/-- One decomposed scoring chunk with its sampled time marker. -/
structure ScoreEvent where
  isHome : Bool
  points : ℤ
  marker : ℚ
deriving DecidableEq

/-- The `rng.uniform(0, 59.9)` marker attached per decomposed chunk. -/
def attachMarkers (rng : Rng) (isHome : Bool) :
    List ℤ → List ScoreEvent × Rng
  | [] => ([], rng)
  | v :: vs =>
    let m := rng.uniform 0 (599/10)
    let rest := attachMarkers m.2 isHome vs
    (⟨isHome, v, m.1⟩ :: rest.1, rest.2)

/-- The `for sequence, event in enumerate(timeline, start=1)` loop of
    `_generate_play_log`. -/
def playLoop (homeTeam awayTeam : Team)
    (homeStats awayStats : List PlayerStatLine) :
    Rng → List ScoreEvent → ℕ → ℤ → ℤ → List Play × Rng
  | rng, [], _, _, _ => ([], rng)
  | rng, e :: rest, seq, homeRun, awayRun =>
    let qc := timeFromMarker e.marker
    let homeRun2 := if e.isHome then homeRun + e.points else homeRun
    let awayRun2 := if e.isHome then awayRun else awayRun + e.points
    let team := if e.isHome then homeTeam else awayTeam
    let stats := if e.isHome then homeStats else awayStats
    let d := describePlay rng team stats e.points
    let play : Play :=
      { sequence := seq, quarter := qc.1, clock := qc.2,
        teamId := team.id, teamName := team.name,
        teamAbbr := team.abbreviation, player := d.1.2.1,
        description := d.1.1, type := d.1.2.2,
        impact := impactLabel homeRun awayRun homeRun2 awayRun2 e.isHome,
        points := e.points, scoreHome := homeRun2, scoreAway := awayRun2 }
    let tail := playLoop homeTeam awayTeam homeStats awayStats d.2 rest
      (seq + 1) homeRun2 awayRun2
    (play :: tail.1, tail.2)

/-- `SimulationService._generate_play_log`. -/
def generatePlayLog (rng : Rng) (homeTeam awayTeam : Team)
    (homeScore awayScore : ℤ)
    (homeStats awayStats : List PlayerStatLine) : List Play × Rng :=
  let s1 := scoreBreakdown rng homeScore
  let e1 := attachMarkers s1.2 true s1.1
  let s2 := scoreBreakdown e1.2 awayScore
  let e2 := attachMarkers s2.2 false s2.1
  let timeline := e1.1 ++ e2.1
  if timeline.isEmpty then ([], e2.2)
  else
    let sorted :=
      List.insertionSort (fun a b => a.marker ≤ b.marker) timeline
    playLoop homeTeam awayTeam homeStats awayStats e2.2 sorted 1 0 0

/-- The last play's running score, if any. -/
def lastScores (plays : List Play) : Option (ℤ × ℤ) :=
  plays.getLast?.map (fun p => (p.scoreHome, p.scoreAway))

/-! ### Breakdown and shuffle lemmas -/

theorem tailMap_spec (r : ℤ) :
    (tailMap r).sum = r ∧ (1 ≤ r → (∀ x ∈ tailMap r, 0 < x) ∧ tailMap r ≠ []) := by
  by_cases h0 : r = 0
  · subst h0; decide
  by_cases h2 : r = 2
  · subst h2; decide
  by_cases h3 : r = 3
  · subst h3; decide
  by_cases h4 : r = 4
  · subst h4; decide
  by_cases h5 : r = 5
  · subst h5; decide
  by_cases h6 : r = 6
  · subst h6; decide
  by_cases h7 : r = 7
  · subst h7; decide
  by_cases h8 : r = 8
  · subst h8; decide
  by_cases h9 : r = 9
  · subst h9; decide
  by_cases h10 : r = 10
  · subst h10; decide
  by_cases h11 : r = 11
  · subst h11; decide
  by_cases h12 : r = 12
  · subst h12; decide
  by_cases h13 : r = 13
  · subst h13; decide
  have hr : tailMap r = [r] := by
    simp [tailMap, h0, h2, h3, h4, h5, h6, h7, h8, h9, h10, h11, h12, h13]
  rw [hr]
  refine ⟨by simp, fun h1 => ⟨?_, by simp⟩⟩
  intro x hx
  simp at hx
  omega

theorem tailMap_sum (r : ℤ) : (tailMap r).sum = r :=
  (tailMap_spec r).1

theorem tailMap_pos (r : ℤ) (h : 1 ≤ r) : ∀ x ∈ tailMap r, 0 < x :=
  ((tailMap_spec r).2 h).1

theorem tailMap_ne_nil (r : ℤ) (h : 1 ≤ r) : tailMap r ≠ [] :=
  ((tailMap_spec r).2 h).2

theorem peelSevens_sum (r : ℤ) : (peelSevens r).sum = r := by
  rw [peelSevens]
  split_ifs with h13
  · have ih := peelSevens_sum (r - 7)
    simp [ih]
  · exact tailMap_sum r
termination_by r.toNat
decreasing_by omega

theorem peelSevens_pos (r : ℤ) (h : 1 ≤ r) : ∀ x ∈ peelSevens r, 0 < x := by
  rw [peelSevens]
  split_ifs with h13
  · intro x hx
    rcases List.mem_cons.mp hx with rfl | hx'
    · omega
    · exact peelSevens_pos (r - 7) (by omega) x hx'
  · exact tailMap_pos r h
termination_by r.toNat
decreasing_by omega

theorem peelSevens_ne_nil (r : ℤ) (h : 1 ≤ r) : peelSevens r ≠ [] := by
  rw [peelSevens]
  split_ifs with h13
  · simp
  · exact tailMap_ne_nil r h

theorem canonicalBreakdown_sum (s : ℤ) (h : 0 ≤ s) :
    (canonicalBreakdown s).sum = s := by
  unfold canonicalBreakdown
  split_ifs with h0
  · simp; omega
  · exact peelSevens_sum s

theorem canonicalBreakdown_pos (s : ℤ) :
    ∀ x ∈ canonicalBreakdown s, 0 < x := by
  unfold canonicalBreakdown
  split_ifs with h0
  · simp
  · exact peelSevens_pos s (by omega)

theorem canonicalBreakdown_ne_nil (s : ℤ) (h : 1 ≤ s) :
    canonicalBreakdown s ≠ [] := by
  unfold canonicalBreakdown
  split_ifs with h0
  · omega
  · exact peelSevens_ne_nil s h

theorem pickOut_perm {α : Type} (j : ℕ) (l : List α) (y : α) (rest : List α)
    (h : pickOut j l = some (y, rest)) : l.Perm (y :: rest) := by
  induction j generalizing l y rest with
  | zero =>
    cases l with
    | nil => simp [pickOut] at h
    | cons x xs =>
      simp [pickOut] at h
      obtain ⟨rfl, rfl⟩ := h
      exact .refl _
  | succ n ih =>
    cases l with
    | nil => simp [pickOut] at h
    | cons x xs =>
      simp only [pickOut, Option.map_eq_some'] at h
      obtain ⟨⟨y', rest'⟩, hp, heq⟩ := h
      obtain ⟨rfl, rfl⟩ := Prod.mk.injEq .. ▸ heq
      exact ((ih xs y' rest' hp).cons x).trans (List.Perm.swap y' x rest')

theorem shuffleAux_perm {α : Type} (fuel : ℕ) :
    ∀ (rng : Rng) (l : List α), (shuffleAux fuel rng l).1.Perm l := by
  induction fuel with
  | zero => intro rng l; exact .refl l
  | succ n ih =>
    intro rng l
    cases l with
    | nil => exact .refl _
    | cons x xs =>
      rw [shuffleAux]
      cases hpick : pickOut (Rng.natBelow rng (x :: xs).length).1 (x :: xs) with
      | none => exact .refl _
      | some p =>
        obtain ⟨y, rest⟩ := p
        have hperm := pickOut_perm _ _ _ _ hpick
        exact ((ih _ rest).cons y).trans hperm.symm

theorem shuffle_perm {α : Type} (rng : Rng) (l : List α) :
    (shuffle rng l).1.Perm l :=
  shuffleAux_perm l.length rng l

theorem scoreBreakdown_perm (rng : Rng) (score : ℤ) :
    (scoreBreakdown rng score).1.Perm (canonicalBreakdown score) :=
  shuffle_perm rng (canonicalBreakdown score)

/-! ### Play-loop lemmas -/

/-- Points credited to the home side within an event list. -/
def homePts (events : List ScoreEvent) : ℤ :=
  ((events.filter (fun e => e.isHome)).map ScoreEvent.points).sum

/-- Points credited to the away side within an event list. -/
def awayPts (events : List ScoreEvent) : ℤ :=
  ((events.filter (fun e => !e.isHome)).map ScoreEvent.points).sum

theorem homePts_perm {l₁ l₂ : List ScoreEvent} (h : l₁.Perm l₂) :
    homePts l₁ = homePts l₂ :=
  ((h.filter _).map _).sum_eq

theorem awayPts_perm {l₁ l₂ : List ScoreEvent} (h : l₁.Perm l₂) :
    awayPts l₁ = awayPts l₂ :=
  ((h.filter _).map _).sum_eq

theorem homePts_append (l₁ l₂ : List ScoreEvent) :
    homePts (l₁ ++ l₂) = homePts l₁ + homePts l₂ := by
  simp [homePts]

theorem awayPts_append (l₁ l₂ : List ScoreEvent) :
    awayPts (l₁ ++ l₂) = awayPts l₁ + awayPts l₂ := by
  simp [awayPts]

theorem homePts_cons (e : ScoreEvent) (l : List ScoreEvent) :
    homePts (e :: l) = (if e.isHome then e.points else 0) + homePts l := by
  simp only [homePts, List.filter_cons]
  cases e.isHome <;> simp

theorem awayPts_cons (e : ScoreEvent) (l : List ScoreEvent) :
    awayPts (e :: l) = (if e.isHome then 0 else e.points) + awayPts l := by
  simp only [awayPts, List.filter_cons]
  cases e.isHome <;> simp

theorem attachMarkers_points (b : Bool) (l : List ℤ) :
    ∀ rng : Rng, (attachMarkers rng b l).1.map ScoreEvent.points = l := by
  induction l with
  | nil => intro rng; rfl
  | cons v vs ih => intro rng; simp [attachMarkers, ih]

theorem attachMarkers_isHome (b : Bool) (l : List ℤ) :
    ∀ rng : Rng, ∀ e ∈ (attachMarkers rng b l).1, e.isHome = b := by
  induction l with
  | nil => intro rng e he; simp [attachMarkers] at he
  | cons v vs ih =>
    intro rng e he
    simp only [attachMarkers, List.mem_cons] at he
    rcases he with rfl | he
    · rfl
    · exact ih _ e he

theorem playLoop_length (homeT awayT : Team)
    (hs as0 : List PlayerStatLine) (events : List ScoreEvent) :
    ∀ (rng : Rng) (seq : ℕ) (h a : ℤ),
      (playLoop homeT awayT hs as0 rng events seq h a).1.length =
        events.length := by
  induction events with
  | nil => intro rng seq h a; rfl
  | cons e rest ih => intro rng seq h a; simp [playLoop, ih]

theorem playLoop_sequences (homeT awayT : Team)
    (hs as0 : List PlayerStatLine) (events : List ScoreEvent) :
    ∀ (rng : Rng) (seq : ℕ) (h a : ℤ),
      (playLoop homeT awayT hs as0 rng events seq h a).1.map Play.sequence =
        List.range' seq events.length := by
  induction events with
  | nil => intro rng seq h a; rfl
  | cons e rest ih =>
    intro rng seq h a
    simp [playLoop, ih, List.range']

theorem playLoop_home_points (homeT awayT : Team)
    (hs as0 : List PlayerStatLine) (hid : homeT.id ≠ awayT.id)
    (events : List ScoreEvent) :
    ∀ (rng : Rng) (seq : ℕ) (h a : ℤ),
      (((playLoop homeT awayT hs as0 rng events seq h a).1.filter
          (fun p => p.teamId == homeT.id)).map Play.points).sum =
        homePts events := by
  induction events with
  | nil => intro rng seq h a; simp [playLoop, homePts]
  | cons e rest ih =>
    intro rng seq h a
    rw [playLoop, homePts_cons]
    cases hhome : e.isHome <;>
      simp [List.filter_cons, hhome, hid, Ne.symm hid, ih]

theorem playLoop_away_points (homeT awayT : Team)
    (hs as0 : List PlayerStatLine) (hid : homeT.id ≠ awayT.id)
    (events : List ScoreEvent) :
    ∀ (rng : Rng) (seq : ℕ) (h a : ℤ),
      (((playLoop homeT awayT hs as0 rng events seq h a).1.filter
          (fun p => p.teamId == awayT.id)).map Play.points).sum =
        awayPts events := by
  induction events with
  | nil => intro rng seq h a; simp [playLoop, awayPts]
  | cons e rest ih =>
    intro rng seq h a
    rw [playLoop, awayPts_cons]
    cases hhome : e.isHome <;>
      simp [List.filter_cons, hhome, hid, Ne.symm hid, ih]

theorem playLoop_last (homeT awayT : Team)
    (hs as0 : List PlayerStatLine) (events : List ScoreEvent) :
    ∀ (rng : Rng) (seq : ℕ) (h a : ℤ), events ≠ [] →
      lastScores (playLoop homeT awayT hs as0 rng events seq h a).1 =
        some (h + homePts events, a + awayPts events) := by
  induction events with
  | nil => intro rng seq h a hne; exact absurd rfl hne
  | cons e rest ih =>
    intro rng seq h a _
    cases rest with
    | nil =>
      rw [playLoop]
      cases hhome : e.isHome <;>
        simp [playLoop, lastScores, homePts_cons, awayPts_cons, homePts,
          awayPts, hhome]
    | cons e2 rest2 =>
      rw [playLoop]
      have hne2 : (playLoop homeT awayT hs as0
          (describePlay rng (if e.isHome then homeT else awayT)
            (if e.isHome then hs else as0) e.points).2 (e2 :: rest2) (seq + 1)
          (if e.isHome then h + e.points else h)
          (if e.isHome then a else a + e.points)).1 ≠ [] := by
        have hlen := playLoop_length homeT awayT hs as0 (e2 :: rest2)
          (describePlay rng (if e.isHome then homeT else awayT)
            (if e.isHome then hs else as0) e.points).2 (seq + 1)
          (if e.isHome then h + e.points else h)
          (if e.isHome then a else a + e.points)
        intro hnil
        rw [hnil] at hlen
        simp at hlen
      rw [lastScores]
      obtain ⟨p0, l0, hl0⟩ := List.exists_cons_of_ne_nil hne2
      simp only [hl0, List.getLast?_cons_cons]
      rw [← hl0, ← lastScores, ih _ (seq + 1) _ _ (by simp)]
      cases hhome : e.isHome <;>
        simp [hhome, homePts_cons, awayPts_cons] <;> omega

/-- An all-zeros draw stream, for concrete witnesses. -/
def rngZeros : Rng := ⟨fun _ => 0, 0⟩

/-- C5: for every non-negative score and every generator state, the
    breakdown is a permutation of the canonical multiset determined by
    the score alone, its entries are strictly positive, and it sums to
    the score — the generator affects only the order. -/
theorem scoreBreakdown_deterministic_multiset (rng : Rng) (score : ℤ)
    (h : 0 ≤ score) :
    (scoreBreakdown rng score).1.Perm (canonicalBreakdown score) ∧
    ((scoreBreakdown rng score).1).sum = score ∧
    ∀ x ∈ (scoreBreakdown rng score).1, 0 < x := by
  have hperm := scoreBreakdown_perm rng score
  refine ⟨hperm, ?_, ?_⟩
  · rw [hperm.sum_eq]
    exact canonicalBreakdown_sum score h
  · intro x hx
    exact canonicalBreakdown_pos score x (hperm.mem_iff.mp hx)

/-- C5 witness: 13 decomposes into the multiset `{7, 3, 3}`. -/
theorem scoreBreakdown_deterministic_multiset_witness :
    ((0 : ℤ) ≤ 13 ∧ canonicalBreakdown 13 = [7, 3, 3]) ∧
    ((scoreBreakdown rngZeros 13).1.Perm (canonicalBreakdown 13) ∧
      ((scoreBreakdown rngZeros 13).1).sum = 13 ∧
      ∀ x ∈ (scoreBreakdown rngZeros 13).1, 0 < x) :=
  ⟨⟨by decide, by
      unfold canonicalBreakdown
      rw [if_neg (by decide), peelSevens, dif_neg (by decide)]
      decide⟩,
    scoreBreakdown_deterministic_multiset rngZeros 13 (by decide)⟩

/-- C4: in every detailed-mode play log, the per-team play points sum to
    that team's final score, the sequence numbers are exactly `1..N`,
    and (when any points were scored at all) the last play's running
    score is the final score. -/
theorem generatePlayLog_consistent (rng : Rng) (homeT awayT : Team)
    (homeScore awayScore : ℤ) (hs as0 : List PlayerStatLine)
    (hid : homeT.id ≠ awayT.id) (hh : 0 ≤ homeScore) (ha : 0 ≤ awayScore) :
    ((((generatePlayLog rng homeT awayT homeScore awayScore hs as0).1.filter
        (fun p => p.teamId == homeT.id)).map Play.points).sum = homeScore) ∧
    ((((generatePlayLog rng homeT awayT homeScore awayScore hs as0).1.filter
        (fun p => p.teamId == awayT.id)).map Play.points).sum = awayScore) ∧
    ((generatePlayLog rng homeT awayT homeScore awayScore hs as0).1.map
        Play.sequence =
      List.range' 1
        (generatePlayLog rng homeT awayT homeScore awayScore hs as0).1.length) ∧
    (1 ≤ homeScore ∨ 1 ≤ awayScore →
      lastScores (generatePlayLog rng homeT awayT homeScore awayScore hs as0).1 =
        some (homeScore, awayScore)) := by
  unfold generatePlayLog
  set s1 := scoreBreakdown rng homeScore with hs1def
  set e1 := attachMarkers s1.2 true s1.1 with he1def
  set s2 := scoreBreakdown e1.2 awayScore with hs2def
  set e2 := attachMarkers s2.2 false s2.1 with he2def
  have hperm1 : s1.1.Perm (canonicalBreakdown homeScore) :=
    scoreBreakdown_perm rng homeScore
  have hperm2 : s2.1.Perm (canonicalBreakdown awayScore) :=
    scoreBreakdown_perm e1.2 awayScore
  have hB1 : e1.1.map ScoreEvent.points = s1.1 := by
    rw [he1def]; exact attachMarkers_points true s1.1 s1.2
  have hB2 : e2.1.map ScoreEvent.points = s2.1 := by
    rw [he2def]; exact attachMarkers_points false s2.1 s2.2
  have hH1 : ∀ e ∈ e1.1, e.isHome = true := by
    rw [he1def]; exact attachMarkers_isHome true s1.1 s1.2
  have hH2 : ∀ e ∈ e2.1, e.isHome = false := by
    rw [he2def]; exact attachMarkers_isHome false s2.1 s2.2
  have hHomeTl : homePts (e1.1 ++ e2.1) = homeScore := by
    rw [homePts_append]
    have h1 : homePts e1.1 = s1.1.sum := by
      unfold homePts
      rw [List.filter_eq_self.mpr (fun e he => hH1 e he), hB1]
    have h2 : homePts e2.1 = 0 := by
      unfold homePts
      rw [List.filter_eq_nil_iff.mpr (fun e he => by simp [hH2 e he])]
      rfl
    rw [h1, h2, hperm1.sum_eq, canonicalBreakdown_sum homeScore hh, add_zero]
  have hAwayTl : awayPts (e1.1 ++ e2.1) = awayScore := by
    rw [awayPts_append]
    have h1 : awayPts e1.1 = 0 := by
      unfold awayPts
      rw [List.filter_eq_nil_iff.mpr (fun e he => by simp [hH1 e he])]
      rfl
    have h2 : awayPts e2.1 = s2.1.sum := by
      unfold awayPts
      rw [List.filter_eq_self.mpr (fun e he => by simp [hH2 e he]), hB2]
    rw [h1, h2, hperm2.sum_eq, canonicalBreakdown_sum awayScore ha, zero_add]
  by_cases hemp : (e1.1 ++ e2.1).isEmpty
  · have htl : e1.1 ++ e2.1 = [] := by simpa [List.isEmpty_iff] using hemp
    obtain ⟨hE1, hE2⟩ := List.append_eq_nil.mp htl
    have h0h : homeScore = 0 := by
      rw [← hHomeTl, htl]; rfl
    have h0a : awayScore = 0 := by
      rw [← hAwayTl, htl]; rfl
    simp only [hemp, if_true]
    refine ⟨by simpa using h0h.symm, by simpa using h0a.symm, by simp, ?_⟩
    intro hpos
    omega
  · have htlne : e1.1 ++ e2.1 ≠ [] := by simpa [List.isEmpty_iff] using hemp
    simp only [hemp, if_false, Bool.false_eq_true]
    set sorted :=
      List.insertionSort (fun a b => a.marker ≤ b.marker) (e1.1 ++ e2.1)
      with hsorteddef
    have hsp : sorted.Perm (e1.1 ++ e2.1) :=
      List.perm_insertionSort (fun a b => a.marker ≤ b.marker) (e1.1 ++ e2.1)
    have hsne : sorted ≠ [] := by
      intro hnil
      apply htlne
      have := hsp.length_eq
      rw [hnil] at this
      exact List.eq_nil_of_length_eq_zero this.symm
    refine ⟨?_, ?_, ?_, ?_⟩
    · rw [playLoop_home_points homeT awayT hs as0 hid sorted e2.2 1 0 0,
        homePts_perm hsp, hHomeTl]
    · rw [playLoop_away_points homeT awayT hs as0 hid sorted e2.2 1 0 0,
        awayPts_perm hsp, hAwayTl]
    · rw [playLoop_sequences homeT awayT hs as0 sorted e2.2 1 0 0,
        playLoop_length homeT awayT hs as0 sorted e2.2 1 0 0]
    · intro _
      rw [playLoop_last homeT awayT hs as0 sorted e2.2 1 0 0 hsne,
        homePts_perm hsp, awayPts_perm hsp, hHomeTl, hAwayTl]
      simp

/-- C4 witness: a 1–0 game with empty stat payloads. -/
theorem generatePlayLog_consistent_witness :
    ((1 : ℕ) ≠ 2 ∧ (0 : ℤ) ≤ 1 ∧ (0 : ℤ) ≤ 0) ∧
    (((((generatePlayLog rngZeros ⟨1, "Alpha", "ALP"⟩ ⟨2, "Beta", "BET"⟩ 1 0
          [] []).1.filter (fun p => p.teamId == (1 : ℕ))).map
            Play.points).sum = 1) ∧
    ((((generatePlayLog rngZeros ⟨1, "Alpha", "ALP"⟩ ⟨2, "Beta", "BET"⟩ 1 0
          [] []).1.filter (fun p => p.teamId == (2 : ℕ))).map
            Play.points).sum = 0) ∧
    ((generatePlayLog rngZeros ⟨1, "Alpha", "ALP"⟩ ⟨2, "Beta", "BET"⟩ 1 0
          [] []).1.map Play.sequence =
      List.range' 1
        (generatePlayLog rngZeros ⟨1, "Alpha", "ALP"⟩ ⟨2, "Beta", "BET"⟩ 1 0
          [] []).1.length) ∧
    ((1 : ℤ) ≤ 1 ∨ (1 : ℤ) ≤ 0 →
      lastScores (generatePlayLog rngZeros ⟨1, "Alpha", "ALP"⟩
          ⟨2, "Beta", "BET"⟩ 1 0 [] []).1 = some (1, 0))) :=
  ⟨⟨by decide, by decide, by decide⟩,
    generatePlayLog_consistent rngZeros ⟨1, "Alpha", "ALP"⟩
      ⟨2, "Beta", "BET"⟩ 1 0 [] [] (by decide) (by decide) (by decide)⟩

/-! ## Team stats and injuries (`_generate_team_stats`, `_apply_injuries`) -/

/-- `SimulationService._player_stat_template` (all-zero base line). -/
def baseStat (p : Player) : PlayerStatLine :=
  { playerId := p.id, teamId := p.teamId, name := p.name,
    position := p.position, passingYards := 0, passingTds := 0,
    interceptions := 0, rushingYards := 0, rushingTds := 0,
    receivingYards := 0, receivingTds := 0, tackles := 0, sacks := 0,
    forcedTurnovers := 0 }

/-- `COALESCE(depth_chart_order, 999)`. -/
def coalesceOrder (p : Player) : ℤ := p.depthOrder.getD 999

/-- `SimulationService._depth_chart_player`: first active player at the
    position by coalesced depth order (`ORDER BY ... LIMIT 1`; earlier
    row wins ties). -/
def depthChartPlayer (players : List Player) (teamId : ℕ) (pos : String) :
    Option Player :=
  (players.filter (fun p =>
    p.teamId == some teamId && p.position == pos && p.status == "active")).foldl
    (fun best p =>
      match best with
      | none => some p
      | some b => if coalesceOrder p < coalesceOrder b then some p else best)
    none

/-- The `if qb:` block of `_generate_team_stats`: passing yards (not
    floored), passing TDs (floored at 0), interceptions (clamped to
    `[0, 3]`). -/
def qbBlock (rules : SimulationRules) (rng : Rng) (qb : Option Player)
    (teamPoints : ℤ) : List PlayerStatLine × ℤ × Rng :=
  match qb with
  | none => ([], 0, rng)
  | some q =>
    let g := rng.gauss 0 35
    let passingYards :=
      truncInt ((q.overall : ℚ) * rules.passingYardsPerRating + g.1)
    let u := g.2.random
    let passingTds := max 0 (pyRound ((teamPoints : ℚ) / 14 + u.1))
    let gi := u.2.gauss (1/2) (4/5)
    let interceptions := min 3 (max 0 (truncInt gi.1))
    ([{ baseStat q with
        passingYards := passingYards
        passingTds := passingTds
        interceptions := interceptions }],
      passingYards, gi.2)

/-- The `if rb:` block: rushing yards (not floored), rushing TDs
    (floored at 0). -/
def rbBlock (rules : SimulationRules) (rng : Rng) (rb : Option Player)
    (teamPoints : ℤ) : List PlayerStatLine × ℤ × Rng :=
  match rb with
  | none => ([], 0, rng)
  | some r =>
    let g := rng.gauss 0 20
    let rushingYards :=
      truncInt ((r.overall : ℚ) * rules.rushingYardsPerRating + g.1)
    let u := g.2.random
    let rushingTds := max 0 (pyRound ((teamPoints : ℚ) / 21 + u.1 - 3/10))
    ([{ baseStat r with
        rushingYards := rushingYards
        rushingTds := rushingTds }], rushingYards, u.2)

/-- The `if wr:` block: receiving yards (not floored), receiving TDs
    (floored at 0). -/
def wrBlock (rules : SimulationRules) (rng : Rng) (wr : Option Player)
    (teamPoints : ℤ) : List PlayerStatLine × ℤ × Rng :=
  match wr with
  | none => ([], 0, rng)
  | some w =>
    let g := rng.gauss 0 25
    let receivingYards :=
      truncInt ((w.overall : ℚ) * rules.receivingYardsPerRating + g.1)
    let u := g.2.random
    let receivingTds := max 0 (pyRound ((teamPoints : ℚ) / 21 + u.1 - 2/5))
    ([{ baseStat w with
        receivingYards := receivingYards
        receivingTds := receivingTds }], receivingYards, u.2)

/-- The `if defender:` block: tackles (floored at 2), sacks (floored at
    0 after one-decimal rounding), forced turnovers (0/1). -/
def defBlock (rules : SimulationRules) (rng : Rng)
    (defender : Option Player) : List PlayerStatLine × Rng :=
  match defender with
  | none => ([], rng)
  | some d =>
    let g := rng.gauss 6 2
    let tackles := max 2 (truncInt g.1)
    let u := g.2.random
    let sacks := max 0 (pyRound1 (u.1 * rules.defenseBigPlayFactor * 10))
    let u2 := u.2.random
    let forced : ℤ := if u2.1 < rules.defenseBigPlayFactor then 1 else 0
    ([{ baseStat d with
        tackles := tackles
        sacks := sacks
        forcedTurnovers := forced }], u2.2)

/-- `SimulationService._apply_injuries`: per present candidate, one
    uniform draw; below `injury_probability` emit a "questionable"
    record and persist it, otherwise persist "healthy" (unconditional
    overwrite). -/
def applyInjuries (rules : SimulationRules) (players : List Player)
    (rng : Rng) :
    List (Option Player) → List InjuryRecord × List Player × Rng
  | [] => ([], players, rng)
  | none :: rest => applyInjuries rules players rng rest
  | some p :: rest =>
    let u := rng.random
    if u.1 < rules.injuryProbability then
      let players1 := setInjuryStatus players p.id "questionable"
      let r := applyInjuries rules players1 u.2 rest
      (⟨p.id, p.teamId, p.name, "questionable"⟩ :: r.1, r.2.1, r.2.2)
    else
      let players1 := setInjuryStatus players p.id "healthy"
      applyInjuries rules players1 u.2 rest

/-- The result of `_generate_team_stats` (players, rollups, injuries). -/
structure TeamStatsResult where
  teamId : ℕ
  players : List PlayerStatLine
  totalYards : ℤ
  turnovers : ℤ
  injuries : List InjuryRecord
deriving DecidableEq

/-- `SimulationService._generate_team_stats`: leader selection with
    fallbacks (RB→WR, WR→TE, EDGE→LB→CB), stat blocks in position
    order, then injuries over the four candidate slots. -/
def generateTeamStats (rules : SimulationRules) (players : List Player)
    (rng : Rng) (team : Team) (teamPoints oppPoints : ℤ) :
    TeamStatsResult × List Player × Rng :=
  let qb := depthChartPlayer players team.id "QB"
  let rb := (depthChartPlayer players team.id "RB").orElse
    (fun _ => depthChartPlayer players team.id "WR")
  let wr := (depthChartPlayer players team.id "WR").orElse
    (fun _ => depthChartPlayer players team.id "TE")
  let defender := ((depthChartPlayer players team.id "EDGE").orElse
    (fun _ => depthChartPlayer players team.id "LB")).orElse
    (fun _ => depthChartPlayer players team.id "CB")
  let gT := rng.gauss 0 1
  let turnovers := max 0 (truncInt (absQ gT.1))
  let qbR := qbBlock rules gT.2 qb teamPoints
  let rbR := rbBlock rules qbR.2.2 rb teamPoints
  let wrR := wrBlock rules rbR.2.2 wr teamPoints
  let dR := defBlock rules wrR.2.2 defender
  let inj := applyInjuries rules players dR.2 [qb, rb, wr, defender]
  ({ teamId := team.id,
     players := qbR.1 ++ rbR.1 ++ wrR.1 ++ dR.1,
     totalYards := qbR.2.1 + rbR.2.1 + wrR.2.1,
     turnovers := turnovers,
     injuries := inj.1 }, inj.2.1, inj.2.2)

/-! ### Non-negativity of the floored stat fields (C6) -/

theorem qbBlock_floored (rules : SimulationRules) (rng : Rng)
    (qb : Option Player) (pts : ℤ) :
    ∀ s ∈ (qbBlock rules rng qb pts).1,
      0 ≤ s.passingTds ∧ 0 ≤ s.interceptions ∧ 0 ≤ s.rushingTds ∧
      0 ≤ s.receivingTds ∧ 0 ≤ s.tackles ∧ 0 ≤ s.sacks ∧
      0 ≤ s.forcedTurnovers := by
  intro s hs
  cases qb with
  | none => simp [qbBlock] at hs
  | some q =>
    simp only [qbBlock, List.mem_singleton] at hs
    subst hs
    refine ⟨le_max_left 0 _, by dsimp [baseStat]; omega, le_refl 0,
      le_refl 0, le_refl 0, le_refl 0, le_refl 0⟩

theorem rbBlock_floored (rules : SimulationRules) (rng : Rng)
    (rb : Option Player) (pts : ℤ) :
    ∀ s ∈ (rbBlock rules rng rb pts).1,
      0 ≤ s.passingTds ∧ 0 ≤ s.interceptions ∧ 0 ≤ s.rushingTds ∧
      0 ≤ s.receivingTds ∧ 0 ≤ s.tackles ∧ 0 ≤ s.sacks ∧
      0 ≤ s.forcedTurnovers := by
  intro s hs
  cases rb with
  | none => simp [rbBlock] at hs
  | some r =>
    simp only [rbBlock, List.mem_singleton] at hs
    subst hs
    exact ⟨le_refl 0, le_refl 0, le_max_left 0 _, le_refl 0, le_refl 0,
      le_refl 0, le_refl 0⟩

theorem wrBlock_floored (rules : SimulationRules) (rng : Rng)
    (wr : Option Player) (pts : ℤ) :
    ∀ s ∈ (wrBlock rules rng wr pts).1,
      0 ≤ s.passingTds ∧ 0 ≤ s.interceptions ∧ 0 ≤ s.rushingTds ∧
      0 ≤ s.receivingTds ∧ 0 ≤ s.tackles ∧ 0 ≤ s.sacks ∧
      0 ≤ s.forcedTurnovers := by
  intro s hs
  cases wr with
  | none => simp [wrBlock] at hs
  | some w =>
    simp only [wrBlock, List.mem_singleton] at hs
    subst hs
    exact ⟨le_refl 0, le_refl 0, le_refl 0, le_max_left 0 _, le_refl 0,
      le_refl 0, le_refl 0⟩

theorem defBlock_floored (rules : SimulationRules) (rng : Rng)
    (defender : Option Player) :
    ∀ s ∈ (defBlock rules rng defender).1,
      0 ≤ s.passingTds ∧ 0 ≤ s.interceptions ∧ 0 ≤ s.rushingTds ∧
      0 ≤ s.receivingTds ∧ 0 ≤ s.tackles ∧ 0 ≤ s.sacks ∧
      0 ≤ s.forcedTurnovers := by
  intro s hs
  cases defender with
  | none => simp [defBlock] at hs
  | some d =>
    simp only [defBlock, List.mem_singleton] at hs
    subst hs
    refine ⟨le_refl 0, le_refl 0, le_refl 0, le_refl 0,
      by dsimp [baseStat]; omega, le_max_left 0 _, ?_⟩
    dsimp [baseStat]
    split <;> decide

/-- C6 amended: every touchdown, interception, tackle, sack,
    forced-turnover and team-turnover value is floored on generation and
    hence non-negative for every roster, score and draw stream; the
    passing/rushing/receiving yardage values are *not* floored (see the
    counterexample) — contrary to the claim, which floors them too. -/
theorem generateTeamStats_floored_fields (rules : SimulationRules)
    (players : List Player) (rng : Rng) (team : Team)
    (teamPoints oppPoints : ℤ) :
    0 ≤ (generateTeamStats rules players rng team teamPoints
      oppPoints).1.turnovers ∧
    ∀ s ∈ (generateTeamStats rules players rng team teamPoints
        oppPoints).1.players,
      0 ≤ s.passingTds ∧ 0 ≤ s.interceptions ∧ 0 ≤ s.rushingTds ∧
      0 ≤ s.receivingTds ∧ 0 ≤ s.tackles ∧ 0 ≤ s.sacks ∧
      0 ≤ s.forcedTurnovers := by
  constructor
  · exact le_max_left 0 _
  · intro s hs
    simp only [generateTeamStats, List.mem_append] at hs
    rcases hs with ((hs | hs) | hs) | hs
    · exact qbBlock_floored _ _ _ _ s hs
    · exact rbBlock_floored _ _ _ _ s hs
    · exact wrBlock_floored _ _ _ _ s hs
    · exact defBlock_floored _ _ _ s hs

/-- Roster with a single 60-rated quarterback on team 1. -/
def qbOnlyPlayers : List Player := [mkPlayer 1 "QB" 1 60 100]

/-- Draw stream with a −100 raw Gaussian for the passing-yards noise
    (`gauss(0, 35)` = −3500). -/
def rngNegGauss : Rng := ⟨fun n => [0, -100, 0, 0, 0].getD n 0, 0⟩

set_option maxHeartbeats 2000000 in
/-- C6 counterexample: passing yards are emitted without a floor —
    `int(60 * 7.0 + (-3500))` = −3080 lands in the stat line, refuting
    the claim that every yardage value is ≥ 0 (floored after
    generation). -/
theorem generateTeamStats_negative_yardage :
    ((generateTeamStats defaultSimRules qbOnlyPlayers rngNegGauss
        ⟨1, "Alpha", "ALP"⟩ 0 0).1.players.map PlayerStatLine.passingYards)
      = [-3080] ∧ (-3080 : ℤ) < 0 := by
  constructor
  · have hqb : depthChartPlayer qbOnlyPlayers 1 "QB" =
        some (mkPlayer 1 "QB" 1 60 100) := by decide
    have hrb : depthChartPlayer qbOnlyPlayers 1 "RB" = none := by decide
    have hwr : depthChartPlayer qbOnlyPlayers 1 "WR" = none := by decide
    have hte : depthChartPlayer qbOnlyPlayers 1 "TE" = none := by decide
    have hed : depthChartPlayer qbOnlyPlayers 1 "EDGE" = none := by decide
    have hlb : depthChartPlayer qbOnlyPlayers 1 "LB" = none := by decide
    have hcb : depthChartPlayer qbOnlyPlayers 1 "CB" = none := by decide
    simp only [generateTeamStats, hqb, hrb, hwr, hte, hed, hlb, hcb,
      Option.orElse, qbBlock, rbBlock, wrBlock, defBlock]
    norm_num [Rng.gauss, Rng.random, Rng.next, rngNegGauss, mkPlayer,
      defaultSimRules, baseStat, truncInt, pyRound, Rat.floor_def]
  · decide

/-! ### Per-leader injury behaviour (C8) -/

/-- The non-absent candidates, in slot order. -/
def presentPlayers (cands : List (Option Player)) : List Player :=
  cands.filterMap id


theorem statusOf_set_same (ps : List Player) (pid : ℕ) (st : String) :
    statusOf (setInjuryStatus ps pid st) pid =
      (statusOf ps pid).map (fun _ => st) := by
  induction ps with
  | nil => rfl
  | cons q ps ih =>
    by_cases h : q.id = pid
    · simp [setInjuryStatus, statusOf, List.find?_cons, h]
    · have hbeq : (q.id == pid) = false := by simp [h]
      simp only [setInjuryStatus, List.map_cons, hbeq, Bool.false_eq_true,
        if_false, statusOf, List.find?_cons] at ih ⊢
      exact ih

theorem statusOf_set_ne (ps : List Player) (pid pid' : ℕ) (st : String)
    (h : pid' ≠ pid) :
    statusOf (setInjuryStatus ps pid st) pid' = statusOf ps pid' := by
  induction ps with
  | nil => rfl
  | cons q ps ih =>
    by_cases hq : q.id = pid
    · have hpp : (pid == pid') = false := by simp [Ne.symm h]
      have hq' : (q.id == pid') = false := by simp [hq, Ne.symm h]
      simp only [setInjuryStatus, List.map_cons, hq, beq_self_eq_true,
        if_true, statusOf, List.find?_cons, hq'] at ih ⊢
      simp only [hq, hpp] at ih ⊢
      exact ih
    · have hbeq : (q.id == pid) = false := by simp [hq]
      simp only [setInjuryStatus, List.map_cons, hbeq, Bool.false_eq_true,
        if_false, statusOf, List.find?_cons] at ih ⊢
      cases hq' : (q.id == pid') with
      | true => simp [hq']
      | false => simp only [hq']; exact ih

theorem applyInjuries_records_ids (rules : SimulationRules)
    (cands : List (Option Player)) :
    ∀ (ps : List Player) (rng : Rng),
      ∀ rec0 ∈ (applyInjuries rules ps rng cands).1,
        rec0.playerId ∈ (presentPlayers cands).map Player.id := by
  induction cands with
  | nil => intro ps rng rec0 h; simp [applyInjuries] at h
  | cons c rest ih =>
    intro ps rng rec0 h
    cases c with
    | none =>
      rw [applyInjuries] at h
      exact ih ps rng rec0 h
    | some p =>
      rw [applyInjuries] at h
      show rec0.playerId ∈ p.id :: (presentPlayers rest).map Player.id
      by_cases hd : (rng.random).1 < rules.injuryProbability
      · rw [if_pos hd] at h
        rcases List.mem_cons.mp h with rfl | h2
        · exact List.mem_cons_self _ _
        · exact List.mem_cons_of_mem _ (ih _ _ rec0 h2)
      · rw [if_neg hd] at h
        exact List.mem_cons_of_mem _ (ih _ _ rec0 h)

theorem applyInjuries_status_frozen (rules : SimulationRules)
    (cands : List (Option Player)) :
    ∀ (ps : List Player) (rng : Rng) (pid : ℕ),
      pid ∉ (presentPlayers cands).map Player.id →
      statusOf (applyInjuries rules ps rng cands).2.1 pid =
        statusOf ps pid := by
  induction cands with
  | nil => intro ps rng pid _; rfl
  | cons c rest ih =>
    intro ps rng pid hnot
    cases c with
    | none =>
      rw [applyInjuries]
      exact ih ps rng pid hnot
    | some p =>
      have hnot' : pid ∉ p.id :: (presentPlayers rest).map Player.id := hnot
      simp only [List.mem_cons, not_or] at hnot'
      obtain ⟨hne, hrest⟩ := hnot'
      rw [applyInjuries]
      by_cases hd : (rng.random).1 < rules.injuryProbability
      · rw [if_pos hd]
        dsimp only
        rw [ih _ _ pid hrest]
        exact statusOf_set_ne ps p.id pid "questionable" hne
      · rw [if_neg hd]
        dsimp only
        rw [ih _ _ pid hrest]
        exact statusOf_set_ne ps p.id pid "healthy" hne

theorem applyInjuries_rng (rules : SimulationRules)
    (cands : List (Option Player)) :
    ∀ (ps : List Player) (rng : Rng),
      (applyInjuries rules ps rng cands).2.2.stream = rng.stream ∧
      (applyInjuries rules ps rng cands).2.2.pos =
        rng.pos + (presentPlayers cands).length := by
  induction cands with
  | nil => intro ps rng; exact ⟨rfl, by simp [applyInjuries, presentPlayers]⟩
  | cons c rest ih =>
    intro ps rng
    cases c with
    | none =>
      rw [applyInjuries]
      exact ih ps rng
    | some p =>
      have hlen : (presentPlayers (some p :: rest)).length =
          (presentPlayers rest).length + 1 := by
        simp [presentPlayers]
      rw [applyInjuries, hlen]
      by_cases hd : (rng.random).1 < rules.injuryProbability
      · rw [if_pos hd]
        dsimp only
        refine ⟨(ih _ _).1, ?_⟩
        rw [(ih _ _).2]
        show (rng.pos + 1) + (presentPlayers rest).length = _
        omega
      · rw [if_neg hd]
        dsimp only
        refine ⟨(ih _ _).1, ?_⟩
        rw [(ih _ _).2]
        show (rng.pos + 1) + (presentPlayers rest).length = _
        omega

theorem applyInjuries_per_slot (rules : SimulationRules)
    (cands : List (Option Player)) :
    ∀ (players : List Player) (rng : Rng),
      ((presentPlayers cands).map Player.id).Nodup →
      ∀ k (hk : k < (presentPlayers cands).length),
        ((applyInjuries rules players rng cands).1.filter
            (fun rec0 => rec0.playerId ==
              ((presentPlayers cands).get ⟨k, hk⟩).id) =
          (if rng.stream (rng.pos + k) < rules.injuryProbability then
            [⟨((presentPlayers cands).get ⟨k, hk⟩).id,
              ((presentPlayers cands).get ⟨k, hk⟩).teamId,
              ((presentPlayers cands).get ⟨k, hk⟩).name, "questionable"⟩]
          else ([] : List InjuryRecord))) ∧
        statusOf (applyInjuries rules players rng cands).2.1
            ((presentPlayers cands).get ⟨k, hk⟩).id =
          (statusOf players ((presentPlayers cands).get ⟨k, hk⟩).id).map
            (fun _ => if rng.stream (rng.pos + k) < rules.injuryProbability
              then "questionable" else "healthy") := by
  induction cands with
  | nil =>
    intro players rng _ k hk
    simp [presentPlayers] at hk
  | cons c rest ih =>
    intro players rng hnodup k hk
    cases c with
    | none =>
      rw [applyInjuries]
      exact ih players rng hnodup k hk
    | some p =>
      have hnodup2 : (p.id :: (presentPlayers rest).map Player.id).Nodup :=
        hnodup
      obtain ⟨hpnotin, hrestnodup⟩ := List.nodup_cons.mp hnodup2
      rw [applyInjuries]
      by_cases hd : (rng.random).1 < rules.injuryProbability
      · rw [if_pos hd]
        dsimp only
        cases k with
        | zero =>
          have hd0 : rng.stream (rng.pos + 0) < rules.injuryProbability := hd
          have hget0 : (presentPlayers (some p :: rest)).get ⟨0, hk⟩ = p := rfl
          rw [hget0]
          constructor
          · rw [List.filter_cons]
            have hrecflt : ((applyInjuries rules
                (setInjuryStatus players p.id "questionable")
                (rng.random).2 rest).1.filter
                (fun rec0 => rec0.playerId == p.id)) = [] := by
              rw [List.filter_eq_nil_iff]
              intro rec0 hrec
              have hmem := applyInjuries_records_ids rules rest _ _ rec0 hrec
              simp only [beq_iff_eq]
              intro heq
              exact hpnotin (heq ▸ hmem)
            simp only [beq_self_eq_true, if_true, hrecflt]
            rw [if_pos hd0]
          · rw [applyInjuries_status_frozen rules rest _ _ p.id hpnotin,
              statusOf_set_same]
            have hd1 : rng.stream rng.pos < rules.injuryProbability := hd
            simp [hd1]
        | succ k' =>
          have hk' : k' < (presentPlayers rest).length := by
            have hlen : (presentPlayers (some p :: rest)).length =
                (presentPlayers rest).length + 1 := by simp [presentPlayers]
            omega
          have hgetS : (presentPlayers (some p :: rest)).get ⟨k' + 1, hk⟩ =
              (presentPlayers rest).get ⟨k', hk'⟩ := rfl
          have hgetmem : (presentPlayers rest).get ⟨k', hk'⟩ ∈
              presentPlayers rest := List.get_mem _ _ _
          have hidne : ((presentPlayers rest).get ⟨k', hk'⟩).id ≠ p.id := by
            intro heq
            exact hpnotin (heq ▸ List.mem_map_of_mem Player.id hgetmem)
          have harg : rng.pos + (k' + 1) = ((rng.random).2).pos + k' := by
            simp only [Rng.random, Rng.next]
            omega
          have hih := ih (setInjuryStatus players p.id "questionable")
            (rng.random).2 hrestnodup k' hk'
          rw [hgetS]
          constructor
          · rw [List.filter_cons]
            have hhd : ((⟨p.id, p.teamId, p.name, "questionable"⟩ :
                InjuryRecord).playerId ==
                ((presentPlayers rest).get ⟨k', hk'⟩).id) = false :=
              beq_eq_false_iff_ne.mpr (Ne.symm hidne)
            simp only [hhd, Bool.false_eq_true, if_false, harg]
            exact hih.1
          · have hset := statusOf_set_ne players p.id
              ((presentPlayers rest).get ⟨k', hk'⟩).id "questionable" hidne
            simp only [harg]
            exact hih.2.trans (congrArg _ hset)
      · rw [if_neg hd]
        dsimp only
        cases k with
        | zero =>
          have hd0 : ¬ rng.stream (rng.pos + 0) < rules.injuryProbability := hd
          have hget0 : (presentPlayers (some p :: rest)).get ⟨0, hk⟩ = p := rfl
          rw [hget0]
          constructor
          · have hrecflt : ((applyInjuries rules
                (setInjuryStatus players p.id "healthy")
                (rng.random).2 rest).1.filter
                (fun rec0 => rec0.playerId == p.id)) = [] := by
              rw [List.filter_eq_nil_iff]
              intro rec0 hrec
              have hmem := applyInjuries_records_ids rules rest _ _ rec0 hrec
              simp only [beq_iff_eq]
              intro heq
              exact hpnotin (heq ▸ hmem)
            rw [hrecflt, if_neg hd0]
          · rw [applyInjuries_status_frozen rules rest _ _ p.id hpnotin,
              statusOf_set_same]
            have hd1 : ¬ rng.stream rng.pos < rules.injuryProbability := hd
            simp [hd1]
        | succ k' =>
          have hk' : k' < (presentPlayers rest).length := by
            have hlen : (presentPlayers (some p :: rest)).length =
                (presentPlayers rest).length + 1 := by simp [presentPlayers]
            omega
          have hgetS : (presentPlayers (some p :: rest)).get ⟨k' + 1, hk⟩ =
              (presentPlayers rest).get ⟨k', hk'⟩ := rfl
          have hgetmem : (presentPlayers rest).get ⟨k', hk'⟩ ∈
              presentPlayers rest := List.get_mem _ _ _
          have hidne : ((presentPlayers rest).get ⟨k', hk'⟩).id ≠ p.id := by
            intro heq
            exact hpnotin (heq ▸ List.mem_map_of_mem Player.id hgetmem)
          have harg : rng.pos + (k' + 1) = ((rng.random).2).pos + k' := by
            simp only [Rng.random, Rng.next]
            omega
          have hih := ih (setInjuryStatus players p.id "healthy")
            (rng.random).2 hrestnodup k' hk'
          rw [hgetS]
          constructor
          · simp only [harg]
            exact hih.1
          · have hset := statusOf_set_ne players p.id
              ((presentPlayers rest).get ⟨k', hk'⟩).id "healthy" hidne
            simp only [harg]
            exact hih.2.trans (congrArg _ hset)

/-- C8 amended: `_apply_injuries` gives each candidate *slot* exactly
    one uniform draw in slot order (the generator advances once per
    present candidate); when the selected leaders are pairwise distinct
    players, each leader receives exactly one draw, an InjuryRecord with
    status "questionable" is emitted for the leader iff its draw is
    below `injury_probability` (at most one record per leader), and the
    persisted status is "questionable"/"healthy" by that same draw
    (unconditional overwrite).  A player occupying two slots — the RB
    slot falls back to the WR leader when the team has no RB — receives
    two draws and up to two outcomes, the later persisted status
    overwriting the earlier (see the counterexample). -/
theorem applyInjuries_per_leader_when_distinct (rules : SimulationRules)
    (players : List Player) (rng : Rng) (cands : List (Option Player))
    (hnodup : ((presentPlayers cands).map Player.id).Nodup) :
    ((applyInjuries rules players rng cands).2.2.stream = rng.stream ∧
      (applyInjuries rules players rng cands).2.2.pos =
        rng.pos + (presentPlayers cands).length) ∧
    ∀ k (hk : k < (presentPlayers cands).length),
      ((applyInjuries rules players rng cands).1.filter
          (fun rec0 => rec0.playerId ==
            ((presentPlayers cands).get ⟨k, hk⟩).id) =
        (if rng.stream (rng.pos + k) < rules.injuryProbability then
          [⟨((presentPlayers cands).get ⟨k, hk⟩).id,
            ((presentPlayers cands).get ⟨k, hk⟩).teamId,
            ((presentPlayers cands).get ⟨k, hk⟩).name, "questionable"⟩]
        else ([] : List InjuryRecord))) ∧
      statusOf (applyInjuries rules players rng cands).2.1
          ((presentPlayers cands).get ⟨k, hk⟩).id =
        (statusOf players ((presentPlayers cands).get ⟨k, hk⟩).id).map
          (fun _ => if rng.stream (rng.pos + k) < rules.injuryProbability
            then "questionable" else "healthy") :=
  ⟨applyInjuries_rng rules cands players rng,
    applyInjuries_per_slot rules cands players rng hnodup⟩

/-- Two distinct leaders for the C8 witness. -/
def rbLeader : Player := mkPlayer 21 "RB" 1 70 100

/-- Two distinct leaders for the C8 witness. -/
def wrLeader : Player := mkPlayer 22 "WR" 1 70 100

/-- C8 witness: with two distinct leaders (one absent slot between
    them), the generator advances exactly once per present candidate. -/
theorem applyInjuries_per_leader_when_distinct_witness :
    ((presentPlayers [some rbLeader, none, some wrLeader]).map
      Player.id).Nodup ∧
    (applyInjuries defaultSimRules [rbLeader, wrLeader] rngZeros
        [some rbLeader, none, some wrLeader]).2.2.pos =
      rngZeros.pos +
        (presentPlayers [some rbLeader, none, some wrLeader]).length :=
  ⟨by decide,
    (applyInjuries_per_leader_when_distinct defaultSimRules
      [rbLeader, wrLeader] rngZeros [some rbLeader, none, some wrLeader]
      (by decide)).1.2⟩

/-- Roster with a single wide receiver on team 2: the RB slot falls back
    to the same player the WR slot selects. -/
def wrOnlyPlayers : List Player := [mkPlayer 5 "WR" 2 70 100]

/-- Draws: zeros through the stat blocks; the first injury draw (RB
    slot) is 0 < 0.07, the second (WR slot, same player) is 1/2 ≥ 0.07. -/
def rngInjurySplit : Rng := ⟨fun n => [0, 0, 0, 0, 0, 0, 1/2].getD n 0, 0⟩

set_option maxHeartbeats 2000000 in
/-- C8 counterexample: with no RB on the roster, the RB slot falls back
    to the WR leader, so one player receives two injury draws in a
    single game: the first emits a "questionable" InjuryRecord, the
    second overwrites the persisted status to "healthy" — refuting both
    "exactly one uniform injury draw" per leader and "at most one injury
    outcome per leader per game" (and leaving an emitted record whose
    status was never persisted). -/
theorem applyInjuries_duplicate_leader_two_draws :
    ((generateTeamStats defaultSimRules wrOnlyPlayers rngInjurySplit
        ⟨2, "Beta", "BET"⟩ 0 0).1.injuries.map
          (fun i => (i.playerId, i.status)) = [(5, "questionable")]) ∧
    statusOf (generateTeamStats defaultSimRules wrOnlyPlayers rngInjurySplit
        ⟨2, "Beta", "BET"⟩ 0 0).2.1 5 = some "healthy" := by
  have hqb : depthChartPlayer wrOnlyPlayers 2 "QB" = none := by decide
  have hrb : depthChartPlayer wrOnlyPlayers 2 "RB" = none := by decide
  have hwr : depthChartPlayer wrOnlyPlayers 2 "WR" =
      some (mkPlayer 5 "WR" 2 70 100) := by decide
  have hte : depthChartPlayer wrOnlyPlayers 2 "TE" = none := by decide
  have hed : depthChartPlayer wrOnlyPlayers 2 "EDGE" = none := by decide
  have hlb : depthChartPlayer wrOnlyPlayers 2 "LB" = none := by decide
  have hcb : depthChartPlayer wrOnlyPlayers 2 "CB" = none := by decide
  constructor <;>
    · simp only [generateTeamStats, hqb, hrb, hwr, hte, hed, hlb, hcb,
        Option.orElse, qbBlock, rbBlock, wrBlock, defBlock, applyInjuries]
      norm_num [Rng.gauss, Rng.random, Rng.next, rngInjurySplit, mkPlayer,
        wrOnlyPlayers, defaultSimRules, baseStat, truncInt, pyRound, absQ,
        setInjuryStatus, statusOf, Rat.floor_def]

/-! ## Game and week simulation (`_simulate_game`, `simulate_week`) -/

/-- The exceptions `simulate_week`/`_simulate_game` can raise. -/
inductive SimErr
  | teamNotFound (id : ℕ)
  | noGames
  | alreadySimulated (gameId : ℕ)
deriving DecidableEq

/-- `SimulationService._team_rating`: average `overall_rating` of the
    team's active players; `AVG(...) or 60.0` also replaces an average
    of exactly 0 (Python falsiness) by 60.0. -/
def teamRating (players : List Player) (teamId : ℕ) : ℚ :=
  let l := players.filter
    (fun p => p.teamId == some teamId && p.status == "active")
  if l.isEmpty then 60
  else
    let avg := ((l.map (fun p => (p.overall : ℚ))).sum) / l.length
    if avg = 0 then 60 else avg

/-- The per-game seed: `(week << 20) ^ (home_id << 10) ^ away_id`. -/
def seedFor (week homeId awayId : ℕ) : ℕ :=
  ((week <<< 20) ^^^ (homeId <<< 10)) ^^^ awayId

/-- The box score returned per game (scores, stat payloads, injuries,
    plays, and the wall-clock `played_at` stamp). -/
structure GameBox where
  gameId : ℕ
  week : ℕ
  playedAt : String
  homeTeam : Team
  awayTeam : Team
  homeScore : ℤ
  awayScore : ℤ
  homeStats : TeamStatsResult
  awayStats : TeamStatsResult
  injuries : List InjuryRecord
  plays : List Play
deriving DecidableEq

/-- `SimulationService._simulate_game`, over a seed-indexed family of
    draw streams `gen` (the deterministic generator: `random.Random(seed)`
    is `⟨gen seed, 0⟩`) and the wall-clock string `now`
    (`datetime.now(UTC)` — the only nondeterministic input). -/
def simulateGame (gen : ℕ → ℕ → ℚ) (rules : SimulationRules) (db : DB)
    (now : String) (game : GameRow) (detailed : Bool) :
    Except SimErr (GameBox × DB) :=
  match getTeam db game.homeTeamId with
  | none => .error (.teamNotFound game.homeTeamId)
  | some homeTeam =>
    match getTeam db game.awayTeamId with
    | none => .error (.teamNotFound game.awayTeamId)
    | some awayTeam =>
      let homeRating := teamRating db.players homeTeam.id
      let awayRating := teamRating db.players awayTeam.id
      let rng0 : Rng := ⟨gen (seedFor game.week homeTeam.id awayTeam.id), 0⟩
      let sc := generateScores rules rng0 homeRating awayRating
      let homeScore := sc.1.1
      let awayScore := sc.1.2
      let db1 := { db with games := db.games.map (fun (g : GameRow) =>
        if g.id == game.id then
          { g with
            homeScore := some homeScore
            awayScore := some awayScore
            playedAt := some now }
        else g) }
      let db2 := { db1 with
        teamGameStats :=
          db1.teamGameStats.filter (fun (r : TeamGameStatsRow) => !(r.gameId == game.id))
        playerGameStats :=
          db1.playerGameStats.filter (fun (r : ℕ × PlayerStatLine) => !(r.1 == game.id))
        gameEvents := db1.gameEvents.filter (fun (r : ℕ × Play) => !(r.1 == game.id)) }
      let hstats := generateTeamStats rules db2.players sc.2 homeTeam
        homeScore awayScore
      let astats := generateTeamStats rules hstats.2.1 hstats.2.2 awayTeam
        awayScore homeScore
      let db3 := { db2 with players := astats.2.1 }
      let db4 := { db3 with teamGameStats := db3.teamGameStats ++
        ([⟨game.id, hstats.1.teamId, hstats.1.totalYards, hstats.1.turnovers⟩,
          ⟨game.id, astats.1.teamId, astats.1.totalYards,
           astats.1.turnovers⟩] : List TeamGameStatsRow) }
      let db5 := { db4 with playerGameStats := db4.playerGameStats ++
        (hstats.1.players ++ astats.1.players).map (fun (s : PlayerStatLine) => (game.id, s)) }
      let plRes :=
        if detailed then
          generatePlayLog astats.2.2 homeTeam awayTeam homeScore awayScore
            hstats.1.players astats.1.players
        else ([], astats.2.2)
      let db6 :=
        if detailed ∧ plRes.1 ≠ [] then
          { db5 with gameEvents := db5.gameEvents ++
            plRes.1.map (fun (p : Play) => (game.id, p)) }
        else db5
      .ok ({ gameId := game.id, week := game.week, playedAt := now,
             homeTeam := homeTeam, awayTeam := awayTeam,
             homeScore := homeScore, awayScore := awayScore,
             homeStats := hstats.1, awayStats := astats.1,
             injuries := hstats.1.injuries ++ astats.1.injuries,
             plays := plRes.1 }, db6)

/-- The scheduled games of a week, `ORDER BY id`. -/
def gamesOfWeek (db : DB) (week : ℕ) : List GameRow :=
  List.insertionSort (fun a b => a.id ≤ b.id)
    (db.games.filter (fun g => g.week == week))

/-- The `for game in games:` loop of `simulate_week`: re-simulation of a
    game whose `played_at` is set raises; earlier games' pending writes
    stay on the connection. -/
def simulateWeekLoop (gen : ℕ → ℕ → ℚ) (rules : SimulationRules)
    (now : String) (detailed : Bool) :
    DB → List GameRow → DB × Except SimErr (List GameBox)
  | db, [] => (db, .ok [])
  | db, g :: rest =>
    if g.playedAt.isSome then (db, .error (.alreadySimulated g.id))
    else
      match simulateGame gen rules db now g detailed with
      | .error e => (db, .error e)
      | .ok (box, db') =>
        match simulateWeekLoop gen rules now detailed db' rest with
        | (dbf, .ok boxes) => (dbf, .ok (box :: boxes))
        | (dbf, .error e) => (dbf, .error e)

/-- `SimulationService.simulate_week`: fetch the week's games (404 when
    none), then simulate in id order. -/
def simulateWeekSvc (gen : ℕ → ℕ → ℚ) (rules : SimulationRules) (db : DB)
    (week : ℕ) (detailed : Bool) (now : String) :
    DB × Except SimErr (List GameBox) :=
  let games := gamesOfWeek db week
  if games.isEmpty then (db, .error .noGames)
  else simulateWeekLoop gen rules now detailed db games

/-- The `/simulate-week` route glue (`main.py` + `db.get_connection`):
    `connection.commit()` runs only after the service returns; on an
    exception the connection is closed without commit, discarding every
    pending write, so the committed state is the original database. -/
def simulateWeekRoute (gen : ℕ → ℕ → ℚ) (rules : SimulationRules) (db : DB)
    (week : ℕ) (detailed : Bool) (now : String) :
    DB × Except SimErr (List GameBox) :=
  match simulateWeekSvc gen rules db week detailed now with
  | (dbp, .ok r) => (dbp, .ok r)
  | (_, .error e) => (db, .error e)

/-- The deterministic payload of a simulated game: final scores, both
    stat payloads (per-player lines, rollups, injuries) and the play
    log — everything except the wall-clock stamp. -/
def boxOutcome (r : GameBox × DB) :
    ℤ × ℤ × TeamStatsResult × TeamStatsResult × List InjuryRecord ×
      List Play :=
  (r.1.homeScore, r.1.awayScore, r.1.homeStats, r.1.awayStats,
    r.1.injuries, r.1.plays)

/-- C7: two simulations of games with the same (week, home team id,
    away team id) against the same database state produce identical
    scores, per-player stat lines, injuries and plays, at any two
    wall-clock times: the seed is the deterministic
    `(week << 20) ^ (home << 10) ^ away` and every draw comes from that
    one seeded generator in fixed order, the wall clock being the only
    other input. -/
theorem simulateGame_deterministic (gen : ℕ → ℕ → ℚ)
    (rules : SimulationRules) (db : DB) (detailed : Bool)
    (g1 g2 : GameRow) (now1 now2 : String)
    (hw : g1.week = g2.week) (hh : g1.homeTeamId = g2.homeTeamId)
    (ha : g1.awayTeamId = g2.awayTeamId) :
    (simulateGame gen rules db now1 g1 detailed).map boxOutcome =
      (simulateGame gen rules db now2 g2 detailed).map boxOutcome := by
  obtain ⟨id1, w1, h1, a1, hs1, as1, p1⟩ := g1
  obtain ⟨id2, w2, h2, a2, hs2, as2, p2⟩ := g2
  dsimp at hw hh ha
  subst hw hh ha
  cases hht : getTeam db h1 with
  | none => simp [simulateGame, hht]
  | some homeTeam =>
    cases hat : getTeam db a1 with
    | none => simp [simulateGame, hht, hat]
    | some awayTeam =>
      simp only [simulateGame, hht, hat, Except.map, boxOutcome]

/-- C7 witness is not required (no hypotheses beyond equalities), but
    the theorem is exercised at a concrete database anyway. -/
theorem simulateGame_deterministic_witness :
    ((1 : ℕ) = 1 ∧ (1 : ℕ) = 1 ∧ (2 : ℕ) = 2) ∧
    (simulateGame (fun _ _ => 0) defaultSimRules dbSwap "t1"
        ⟨7, 1, 1, 2, none, none, none⟩ true).map boxOutcome =
      (simulateGame (fun _ _ => 0) defaultSimRules dbSwap "t2"
        ⟨8, 1, 1, 2, none, none, none⟩ true).map boxOutcome :=
  ⟨⟨rfl, rfl, rfl⟩,
    simulateGame_deterministic (fun _ _ => 0) defaultSimRules dbSwap true
      ⟨7, 1, 1, 2, none, none, none⟩ ⟨8, 1, 1, 2, none, none, none⟩
      "t1" "t2" rfl rfl rfl⟩

theorem simulateGame_isOk (gen : ℕ → ℕ → ℚ) (rules : SimulationRules)
    (db : DB) (now : String) (g : GameRow) (detailed : Bool)
    (hh : (getTeam db g.homeTeamId).isSome)
    (ha : (getTeam db g.awayTeamId).isSome) :
    exceptIsOk (simulateGame gen rules db now g detailed) = true := by
  cases hht : getTeam db g.homeTeamId with
  | none => rw [hht] at hh; simp at hh
  | some homeTeam =>
    cases hat : getTeam db g.awayTeamId with
    | none => rw [hat] at ha; simp at ha
    | some awayTeam =>
      simp [simulateGame, hht, hat, exceptIsOk]

theorem simulateGame_teams_eq (gen : ℕ → ℕ → ℚ) (rules : SimulationRules)
    (db : DB) (now : String) (g : GameRow) (detailed : Bool)
    (box : GameBox) (db' : DB)
    (h : simulateGame gen rules db now g detailed = .ok (box, db')) :
    db'.teams = db.teams := by
  cases hht : getTeam db g.homeTeamId with
  | none => simp [simulateGame, hht] at h
  | some homeTeam =>
    cases hat : getTeam db g.awayTeamId with
    | none => simp [simulateGame, hht, hat] at h
    | some awayTeam =>
      simp only [simulateGame, hht, hat] at h
      injection h with hpair
      have h2 := congrArg Prod.snd hpair
      dsimp only at h2
      rw [← h2]
      repeat' split
      all_goals rfl

theorem getTeam_of_teams_eq {db db' : DB} (h : db'.teams = db.teams)
    (teamId : ℕ) : getTeam db' teamId = getTeam db teamId := by
  unfold getTeam
  rw [h]

theorem simulateWeekLoop_flagged (gen : ℕ → ℕ → ℚ)
    (rules : SimulationRules) (now : String) (detailed : Bool)
    (games : List GameRow) :
    ∀ (db : DB),
      (∀ g ∈ games, (getTeam db g.homeTeamId).isSome ∧
        (getTeam db g.awayTeamId).isSome) →
      (∃ g ∈ games, g.playedAt.isSome) →
      ∃ gid, (simulateWeekLoop gen rules now detailed db games).2 =
        .error (.alreadySimulated gid) := by
  induction games with
  | nil =>
    intro db _ hex
    simp at hex
  | cons g rest ih =>
    intro db hteams hex
    by_cases hp : g.playedAt.isSome
    · exact ⟨g.id, by simp [simulateWeekLoop, hp]⟩
    · have hex' : ∃ g2 ∈ rest, g2.playedAt.isSome := by
        rcases hex with ⟨g2, hg2, hp2⟩
        rcases List.mem_cons.mp hg2 with rfl | hmem
        · exact absurd hp2 hp
        · exact ⟨g2, hmem, hp2⟩
      obtain ⟨hh, ha⟩ := hteams g (List.mem_cons_self g rest)
      have hok := simulateGame_isOk gen rules db now g detailed hh ha
      cases hres : simulateGame gen rules db now g detailed with
      | error e => rw [hres] at hok; simp [exceptIsOk] at hok
      | ok r =>
        obtain ⟨box, db'⟩ := r
        have hteq := simulateGame_teams_eq gen rules db now g detailed
          box db' hres
        have hteams' : ∀ g2 ∈ rest, (getTeam db' g2.homeTeamId).isSome ∧
            (getTeam db' g2.awayTeamId).isSome := by
          intro g2 hmem
          rw [getTeam_of_teams_eq hteq, getTeam_of_teams_eq hteq]
          exact hteams g2 (List.mem_cons_of_mem g hmem)
        obtain ⟨gid, hloop⟩ := ih db' hteams' hex'
        refine ⟨gid, ?_⟩
        rcases hrec : simulateWeekLoop gen rules now detailed db' rest
          with ⟨dbf, res⟩
        rw [hrec] at hloop
        rw [simulateWeekLoop, if_neg hp]
        simp only [hres, hrec]
        cases res with
        | ok boxes => simp at hloop
        | error e => simpa using hloop

/-- C10: when any game of the requested week already has `played_at`
    set, `simulate_week` raises the already-simulated error — wherever
    that game sits in the id-ordered list — and the route commits
    nothing: the exception skips `connection.commit()` and the closing
    connection discards every pending write, leaving the committed
    database exactly as before the call. -/
theorem simulateWeek_already_simulated_rejected (gen : ℕ → ℕ → ℚ)
    (rules : SimulationRules) (db : DB) (week : ℕ) (detailed : Bool)
    (now : String)
    (hteams : ∀ g ∈ gamesOfWeek db week,
      (getTeam db g.homeTeamId).isSome ∧ (getTeam db g.awayTeamId).isSome)
    (hplayed : ∃ g ∈ gamesOfWeek db week, g.playedAt.isSome) :
    ∃ gid, simulateWeekRoute gen rules db week detailed now =
      (db, .error (.alreadySimulated gid)) := by
  have hne : (gamesOfWeek db week).isEmpty = false := by
    rcases hplayed with ⟨g, hg, _⟩
    cases hgames : gamesOfWeek db week with
    | nil => rw [hgames] at hg; simp at hg
    | cons a l => simp [hgames]
  obtain ⟨gid, hloop⟩ := simulateWeekLoop_flagged gen rules now detailed
    (gamesOfWeek db week) db hteams hplayed
  refine ⟨gid, ?_⟩
  unfold simulateWeekRoute simulateWeekSvc
  simp only [hne, Bool.false_eq_true, if_false]
  rcases hrec : simulateWeekLoop gen rules now detailed db
    (gamesOfWeek db week) with ⟨dbp, res⟩
  rw [hrec] at hloop
  cases res with
  | ok boxes => simp at hloop
  | error e =>
    have he : e = SimErr.alreadySimulated gid := by simpa using hloop
    simp [he]

/-- Fixture for C10: two week-1 games; the second in id order is
    already played. -/
def dbWeekFlagged : DB :=
  { teams := twoTeams,
    players := [mkPlayer 10 "RB" 1 70 100, mkPlayer 20 "RB" 2 70 100],
    picks := [],
    games := [⟨1, 1, 1, 2, none, none, none⟩,
              ⟨2, 1, 2, 1, some 21, some 17, some "2025-09-08T20:00:00"⟩],
    teamGameStats := [], playerGameStats := [], gameEvents := [] }

/-- C10 witness: the week contains an already-played game (in second
    position), so the route fails with the already-simulated error and
    the committed state is the pre-call database. -/
theorem simulateWeek_already_simulated_rejected_witness :
    ((∀ g ∈ gamesOfWeek dbWeekFlagged 1,
        (getTeam dbWeekFlagged g.homeTeamId).isSome ∧
        (getTeam dbWeekFlagged g.awayTeamId).isSome) ∧
      (∃ g ∈ gamesOfWeek dbWeekFlagged 1, g.playedAt.isSome)) ∧
    ∃ gid, simulateWeekRoute (fun _ _ => 0) defaultSimRules dbWeekFlagged 1
        false "t" = (dbWeekFlagged, .error (.alreadySimulated gid)) :=
  ⟨⟨by decide, by decide⟩,
    simulateWeek_already_simulated_rejected (fun _ _ => 0) defaultSimRules
      dbWeekFlagged 1 false "t" (by decide) (by decide)⟩
